import Mathlib

/-!
Composite identifiers and single-match reads.

A shallow embedding of

* the composite identifier codec used by the Directory Service conditional
  forwarder (`ParseDSConditionalForwarderID` and the identifier it parses),
* the acceptance-test checks `testAccCheckConditionalForwarderExists` and
  `testAccCheckConditionalForwarderDestroy`
  (`internal/service/ds/conditional_forwarder_test.go`),
* the data source read `dataSourceNetworkInterfaceRead` and the schema of
  `DataSourceNetworkInterface`
  (`internal/service/ec2/network_interface_data_source.go`),
* the Spot Fleet checks `testAccCheckSpotFleetRequestExists`,
  `testAccCheckSpotFleetRequestRecreatedConfig`,
  `testAccCheckSpotFleetRequest_IAMInstanceProfileARN`,
  `testAccCheckSpotFleetRequest_EBSAttributes` and
  `testAccCheckSpotFleetRequest_PlacementAttributes`, and the configurations
  `testAccSpotFleetRequestConfig`,
  `testAccSpotFleetRequestChangeSpotBidPriceConfig` and
  `testAccSpotFleetRequestTenancyGroupConfig`
  (`internal/service/ec2/spot_fleet_request_test.go`).

Go strings are modelled by `String`, read through their character list; a Go
call that returns `(value, error)` is modelled by `Except`; remote calls are a
step function on an explicit remote state, and every call is recorded.
-/

namespace TerraformAws

/-! ## Errors -/

/-- An error handed back by an AWS SDK call: the `awserr.Error` code and
message. -/
structure SdkError where
  code : String
  message : String
deriving DecidableEq, Repr

/-- Go `error` values, tagged by the place that builds them. -/
inductive GoError where
  /-- The codec error of `encode`. -/
  | MalformedComponent
  /-- The codec error of `decode`. -/
  | MalformedIdentifier
  /-- A value built by `fmt.Errorf` (without `%w`) in this repository. -/
  | errorf (msg : String)
  /-- A value built by `fmt.Errorf("<msg>: %w", inner)`. -/
  | wrapf (msg : String) (inner : GoError)
  /-- An error returned by an AWS SDK call, passed on as it is. -/
  | sdk (e : SdkError)
  /-- An error returned by the host framework (`d.Set`). -/
  | host (msg : String)
deriving DecidableEq, Repr

instance instDecidableEqExcept {ε α : Type} [DecidableEq ε] [DecidableEq α] :
    DecidableEq (Except ε α)
  | Except.ok a, Except.ok b =>
    if h : a = b then isTrue (by rw [h]) else isFalse (fun h2 => h (Except.ok.inj h2))
  | Except.error a, Except.error b =>
    if h : a = b then isTrue (by rw [h]) else isFalse (fun h2 => h (Except.error.inj h2))
  | Except.ok _, Except.error _ => isFalse (fun h => Except.noConfusion h)
  | Except.error _, Except.ok _ => isFalse (fun h => Except.noConfusion h)

/-! ## Composite identifier codec -/

/-- Modelled from the spec: the separator of the conditional forwarder
identifier, the character that joins the two components in the spec's
concrete scenarios (`"d-12345,test.example.com"`). The repository's
`internal/service/ds/conditional_forwarder.go` is not among the sources. -/
def separator : Char := ','

/-- Modelled from the spec: `encode` of section 4.1 (the encoder of
`internal/service/ds/conditional_forwarder.go` is not among the sources).
Joins the components with the separator; fails with `MalformedComponent` if
any component already contains the separator. -/
def encode (sep : Char) (components : List String) : Except GoError String :=
  if components.any (fun c => c.data.contains sep) then
    Except.error GoError.MalformedComponent
  else
    Except.ok (String.mk ([sep].intercalate (components.map String.data)))

/-- Modelled from the spec: `decode` of section 4.1 (the decoder of
`internal/service/ds/conditional_forwarder.go` is not among the sources).
Splits on the separator; fails with `MalformedIdentifier` if the number of
parts is not the expected arity. -/
def decode (sep : Char) (arity : Nat) (id : String) : Except GoError (List String) :=
  let parts := (id.data.splitOn sep).map String.mk
  if parts.length = arity then Except.ok parts else Except.error GoError.MalformedIdentifier

/-- Modelled from the spec: `ParseDSConditionalForwarderID`, the decoder of
arity 2 that the tests call; it lives in
`internal/service/ds/conditional_forwarder.go`, which is not among the
sources. Returns `(directoryId, domainName)`. -/
def ParseDSConditionalForwarderID (id : String) : Except GoError (String × String) :=
  match decode separator 2 id with
  | Except.ok [directoryId, domainName] => Except.ok (directoryId, domainName)
  | Except.ok _ => Except.error GoError.MalformedIdentifier
  | Except.error e => Except.error e

/-- Modelled from the spec: the identifier a create operation stores for a
conditional forwarder, `encode [directoryId, domainName]`. -/
def conditionalForwarderID (directoryId domainName : String) : Except GoError String :=
  encode separator [directoryId, domainName]

/-! ## Outcomes and recorded remote calls -/

/-- What a Go function of result type `error` does: it returns `nil`, returns
an error, or does not return because of a run-time panic (a failed type
assertion, an index out of range). -/
inductive Outcome where
  | nil
  | err (e : GoError)
  | panic
deriving DecidableEq, Repr

/-- The remote side as the code sees it: the state of the remote service and
the requests sent so far, oldest first. -/
structure World (σ ι : Type) where
  remote : σ
  calls : List ι

/-- One remote call: the service answers from its state and moves on; the
request is recorded. -/
def World.call {σ ι ρ : Type} (api : σ → ι → ρ × σ) (w : World σ ι) (input : ι) :
    ρ × World σ ι :=
  ((api w.remote input).1, { remote := (api w.remote input).2, calls := w.calls ++ [input] })

/-- `tfawserr.ErrMessageContains(err, code, message)` for an SDK error: the
code is `code` and the message contains `message`. -/
def ErrMessageContains (e : SdkError) (code message : String) : Bool :=
  decide (e.code = code) && decide (message.data <:+: e.message.data)

/-- `directoryservice.ErrCodeEntityDoesNotExistException`. -/
def ErrCodeEntityDoesNotExistException : String := "EntityDoesNotExistException"

/-! ## Directory Service conditional forwarder checks -/

/-- `terraform.ResourceState`: the fields the checks read, `Type` and
`Primary.ID`. -/
structure ResourceState where
  rsType : String
  PrimaryID : String
deriving DecidableEq, Repr

/-- `s.RootModule().Resources`: the resources by name, in the order in which
`range` visits them. -/
abbrev State := List (String × ResourceState)

/-- `directoryservice.DescribeConditionalForwardersInput`. -/
structure DescribeConditionalForwardersInput where
  DirectoryId : String
  RemoteDomainNames : List String
deriving DecidableEq, Repr

/-- `directoryservice.ConditionalForwarder`, the field the checks read. -/
structure ConditionalForwarder where
  DnsIpAddrs : List String
deriving DecidableEq, Repr

/-- `directoryservice.DescribeConditionalForwardersOutput`. -/
structure DescribeConditionalForwardersOutput where
  ConditionalForwarders : List ConditionalForwarder
deriving DecidableEq, Repr

/-- `conn.DescribeConditionalForwarders` as a step of the remote service. -/
abbrev DirectoryServiceConn (σ : Type) :=
  σ → DescribeConditionalForwardersInput →
    Except SdkError DescribeConditionalForwardersOutput × σ

/-- The world of the Directory Service checks. -/
abbrev DSWorld (σ : Type) := World σ DescribeConditionalForwardersInput

/-- The parser the checks call, `tfds.ParseDSConditionalForwarderID`. -/
abbrev IDParser := String → Except GoError (String × String)

/-- The loop `for k, v := range cfd.DnsIpAddrs` of
`testAccCheckConditionalForwarderExists`, from index `k` on. -/
def compareDnsIps (dnsIps : List String) : Nat → List String → Outcome
  | _, [] => Outcome.nil
  | k, v :: rest =>
    match dnsIps.get? k with
    | none => Outcome.panic
    | some ip =>
      if v ≠ ip then
        Outcome.err (GoError.errorf
          ("DnsIp mismatch, '" ++ v ++ "' != '" ++ ip ++ "' at index '" ++ toString k ++ "'"))
      else compareDnsIps dnsIps (k + 1) rest

/-- The check function returned by
`testAccCheckConditionalForwarderExists(name, dnsIps)`, applied to a state.
`dnsIps = none` is the `nil` slice. -/
def testAccCheckConditionalForwarderExists {σ : Type} (parse : IDParser)
    (conn : DirectoryServiceConn σ) (name : String) (dnsIps : Option (List String))
    (s : State) (w : DSWorld σ) : Outcome × DSWorld σ :=
  match s.lookup name with
  | none => (Outcome.err (GoError.errorf ("Not found: " ++ name)), w)
  | some rs =>
    if rs.PrimaryID = "" then (Outcome.err (GoError.errorf "No ID is set"), w)
    else
      match parse rs.PrimaryID with
      | Except.error e => (Outcome.err e, w)
      | Except.ok (directoryId, domainName) =>
        match w.call conn { DirectoryId := directoryId, RemoteDomainNames := [domainName] } with
        | (Except.error e, w1) => (Outcome.err (GoError.sdk e), w1)
        | (Except.ok res, w1) =>
          match res.ConditionalForwarders with
          | [] => (Outcome.err (GoError.errorf "No Conditional Fowrwarder found"), w1)
          | cfd :: _ =>
            match dnsIps with
            | none => (Outcome.nil, w1)
            | some ips =>
              if ips.length ≠ cfd.DnsIpAddrs.length then
                (Outcome.err (GoError.errorf "DnsIpAddrs length mismatch"), w1)
              else (compareDnsIps ips 0 cfd.DnsIpAddrs, w1)

/-- The check `testAccCheckConditionalForwarderDestroy`, over the resources
of the root module in iteration order. -/
def testAccCheckConditionalForwarderDestroy {σ : Type} (parse : IDParser)
    (conn : DirectoryServiceConn σ) : State → DSWorld σ → Outcome × DSWorld σ
  | [], w => (Outcome.nil, w)
  | (_, rs) :: rest, w =>
    if rs.rsType ≠ "aws_directory_service_conditional_forwarder" then
      testAccCheckConditionalForwarderDestroy parse conn rest w
    else
      match parse rs.PrimaryID with
      | Except.error e => (Outcome.err e, w)
      | Except.ok (directoryId, domainName) =>
        match w.call conn { DirectoryId := directoryId, RemoteDomainNames := [domainName] } with
        | (Except.error e, w1) =>
          if ErrMessageContains e ErrCodeEntityDoesNotExistException "" then
            testAccCheckConditionalForwarderDestroy parse conn rest w1
          else (Outcome.err (GoError.sdk e), w1)
        | (Except.ok res, w1) =>
          if res.ConditionalForwarders.length > 0 then
            (Outcome.err (GoError.errorf
              "Expected AWS Directory Service Conditional Forwarder to be gone, but was still found"),
              w1)
          else testAccCheckConditionalForwarderDestroy parse conn rest w1

/-! ## EC2 network interface data source -/

/-- Values of the host framework (`interface{}` arguments of `d.Set`, results
of `d.GetOk`). -/
inductive Value where
  /-- A Go `string`. -/
  | str (s : String)
  /-- A Go `*string`; `none` is the nil pointer. -/
  | strPtr (p : Option String)
  /-- A `[]interface{}`. -/
  | list (xs : List Value)
  /-- A `*schema.Set`, by its elements. -/
  | set (xs : List Value)
  /-- A `map[string]interface{}`. -/
  | map (kvs : List (String × Value))

/-- The zero value of its type, as `d.GetOk` tests it. -/
def Value.isZero : Value → Bool
  | Value.str s => s == ""
  | Value.strPtr p => p.isNone
  | Value.list xs => xs.isEmpty
  | Value.set xs => xs.isEmpty
  | Value.map kvs => kvs.isEmpty

/-- `aws.StringValue`: the string behind the pointer, `""` for nil. -/
def StringValue (p : Option String) : String :=
  match p with
  | some s => s
  | none => ""

/-- The AWS SDK and repository types that the read passes on without looking
inside them. -/
structure SdkTypes where
  NetworkInterfaceAssociation : Type
  NetworkInterfaceAttachment : Type
  GroupIdentifier : Type
  NetworkInterfaceIpv6Address : Type
  NetworkInterfacePrivateIpAddress : Type
  Tag : Type
  Filter : Type
  KeyValueTags : Type
  IgnoreConfig : Type

/-- `ec2.NetworkInterface`, the fields the read uses. -/
structure NetworkInterface (T : SdkTypes) where
  NetworkInterfaceId : Option String
  Association : Option T.NetworkInterfaceAssociation
  Attachment : Option T.NetworkInterfaceAttachment
  AvailabilityZone : Option String
  Description : Option String
  Groups : List T.GroupIdentifier
  InterfaceType : Option String
  Ipv6Addresses : List T.NetworkInterfaceIpv6Address
  MacAddress : Option String
  OwnerId : Option String
  PrivateDnsName : Option String
  PrivateIpAddress : Option String
  PrivateIpAddresses : List T.NetworkInterfacePrivateIpAddress
  RequesterId : Option String
  SubnetId : Option String
  OutpostArn : Option String
  VpcId : Option String
  TagSet : List T.Tag

/-- `ec2.DescribeNetworkInterfacesInput`; `none` is a nil slice. -/
structure DescribeNetworkInterfacesInput (T : SdkTypes) where
  NetworkInterfaceIds : Option (List String)
  Filters : Option (List T.Filter)

/-- `ec2.DescribeNetworkInterfacesOutput`. -/
structure DescribeNetworkInterfacesOutput (T : SdkTypes) where
  NetworkInterfaces : List (NetworkInterface T)

/-- `conn.DescribeNetworkInterfaces` as a step of the remote service; the
response pointer may be nil (`none`). -/
abbrev EC2Conn (T : SdkTypes) (σ : Type) :=
  σ → DescribeNetworkInterfacesInput T →
    Except SdkError (Option (DescribeNetworkInterfacesOutput T)) × σ

/-- The world of the EC2 read. -/
abbrev EC2World (T : SdkTypes) (σ : Type) := World σ (DescribeNetworkInterfacesInput T)

/-- `conns.AWSClient`, the fields the read uses. -/
structure AWSClient (T : SdkTypes) (σ : Type) where
  EC2Conn : EC2Conn T σ
  IgnoreTagsConfig : T.IgnoreConfig

/-- Functions of the repository that the read calls and that are defined
outside `network_interface_data_source.go`. -/
structure Helpers (T : SdkTypes) where
  BuildFiltersDataSource : List Value → List T.Filter
  flattenNetworkInterfaceAssociation : T.NetworkInterfaceAssociation → Value
  FlattenAttachment : T.NetworkInterfaceAttachment → Value
  FlattenGroupIdentifiers : List T.GroupIdentifier → Value
  flattenNetworkInterfaceIPv6Address : List T.NetworkInterfaceIpv6Address → Value
  FlattenNetworkInterfacesPrivateIPAddresses : List T.NetworkInterfacePrivateIpAddress → Value
  KeyValueTags : List T.Tag → T.KeyValueTags
  IgnoreAWS : T.KeyValueTags → T.KeyValueTags
  IgnoreConfig : T.KeyValueTags → T.IgnoreConfig → T.KeyValueTags
  Map : T.KeyValueTags → Value

/-- The host framework's verdict on `d.Set(key, value)`: the message of the
error it returns, `none` when the value is accepted. -/
abbrev SetVerdict := String → Value → Option String

/-- `schema.ResourceData`: the resource ID and the attribute values. -/
structure ResourceData where
  id : String
  attrs : String → Option Value

/-- `d.GetOk(key)`: the value, when it is set to something other than the
zero value of its type. -/
def ResourceData.GetOk (d : ResourceData) (key : String) : Option Value :=
  match d.attrs key with
  | some v => if v.isZero then none else some v
  | none => none

/-- `d.SetId(v)`: sets the resource ID and, as the framework does, writes the
attribute `id` with the same string, without consulting the schema. -/
def ResourceData.SetId (d : ResourceData) (v : String) : ResourceData :=
  { id := v, attrs := fun k => if k = "id" then some (Value.str v) else d.attrs k }

/-- `d.Set(key, value)`: writes the attribute `key`, or returns the
framework's error and writes nothing. -/
def ResourceData.Set (verdict : SetVerdict) (d : ResourceData) (key : String) (value : Value) :
    ResourceData × Option GoError :=
  match verdict key value with
  | some msg => (d, some (GoError.host msg))
  | none => ({ d with attrs := fun k => if k = key then some value else d.attrs k }, none)

/-- The request that `dataSourceNetworkInterfaceRead` builds from the
resource data; `none` when a type assertion (`v.(string)`,
`v.(*schema.Set)`) panics. -/
def dataSourceNetworkInterfaceInput {T : SdkTypes} (h : Helpers T) (d : ResourceData) :
    Option (DescribeNetworkInterfacesInput T) :=
  let ids : Option (Option (List String)) :=
    match d.GetOk "id" with
    | some (Value.str v) => some (some [v])
    | some _ => none
    | none => some none
  let filters : Option (Option (List T.Filter)) :=
    match d.GetOk "filter" with
    | some (Value.set v) => some (some (h.BuildFiltersDataSource v))
    | some _ => none
    | none => some none
  match ids, filters with
  | some i, some f => some { NetworkInterfaceIds := i, Filters := f }
  | _, _ => none

/-- The attribute writes of `dataSourceNetworkInterfaceRead` from
`d.Set("availability_zone", ...)` to `d.Set("vpc_id", ...)`, whose errors
are dropped. -/
def setPlainAttributes {T : SdkTypes} (verdict : SetVerdict) (h : Helpers T)
    (eni : NetworkInterface T) (d : ResourceData) : ResourceData :=
  let d := (d.Set verdict "availability_zone" (Value.strPtr eni.AvailabilityZone)).1
  let d := (d.Set verdict "description" (Value.strPtr eni.Description)).1
  let d := (d.Set verdict "security_groups" (h.FlattenGroupIdentifiers eni.Groups)).1
  let d := (d.Set verdict "interface_type" (Value.strPtr eni.InterfaceType)).1
  let d := (d.Set verdict "ipv6_addresses"
    (h.flattenNetworkInterfaceIPv6Address eni.Ipv6Addresses)).1
  let d := (d.Set verdict "mac_address" (Value.strPtr eni.MacAddress)).1
  let d := (d.Set verdict "owner_id" (Value.strPtr eni.OwnerId)).1
  let d := (d.Set verdict "private_dns_name" (Value.strPtr eni.PrivateDnsName)).1
  let d := (d.Set verdict "private_ip" (Value.strPtr eni.PrivateIpAddress)).1
  let d := (d.Set verdict "private_ips"
    (h.FlattenNetworkInterfacesPrivateIPAddresses eni.PrivateIpAddresses)).1
  let d := (d.Set verdict "requester_id" (Value.strPtr eni.RequesterId)).1
  let d := (d.Set verdict "subnet_id" (Value.strPtr eni.SubnetId)).1
  let d := (d.Set verdict "outpost_arn" (Value.strPtr eni.OutpostArn)).1
  (d.Set verdict "vpc_id" (Value.strPtr eni.VpcId)).1

/-- The part of `dataSourceNetworkInterfaceRead` after
`eni := resp.NetworkInterfaces[0]`: the ID and the attribute writes. -/
def setNetworkInterface {T : SdkTypes} (verdict : SetVerdict) (h : Helpers T)
    (ignoreTagsConfig : T.IgnoreConfig) (eni : NetworkInterface T) (d : ResourceData) :
    Outcome × ResourceData :=
  let d := d.SetId (StringValue eni.NetworkInterfaceId)
  let d :=
    match eni.Association with
    | some a => (d.Set verdict "association" (h.flattenNetworkInterfaceAssociation a)).1
    | none => d
  let d :=
    match eni.Attachment with
    | some a => (d.Set verdict "attachment" (Value.list [h.FlattenAttachment a])).1
    | none => d
  let d := setPlainAttributes verdict h eni d
  let r := d.Set verdict "tags"
    (h.Map (h.IgnoreConfig (h.IgnoreAWS (h.KeyValueTags eni.TagSet)) ignoreTagsConfig))
  match r.2 with
  | some e => (Outcome.err (GoError.wrapf "error setting tags" e), r.1)
  | none => (Outcome.nil, r.1)

/-- The read `dataSourceNetworkInterfaceRead(d, meta)`. The debug log line
is not modelled. -/
def dataSourceNetworkInterfaceRead {T : SdkTypes} {σ : Type} (verdict : SetVerdict)
    (h : Helpers T) (d : ResourceData) (client : AWSClient T σ) (w : EC2World T σ) :
    Outcome × ResourceData × EC2World T σ :=
  match dataSourceNetworkInterfaceInput h d with
  | none => (Outcome.panic, d, w)
  | some input =>
    match w.call client.EC2Conn input with
    | (Except.error e, w1) => (Outcome.err (GoError.sdk e), d, w1)
    | (Except.ok resp, w1) =>
      match resp with
      | none => (Outcome.err (GoError.errorf "no matching network interface found"), d, w1)
      | some out =>
        if out.NetworkInterfaces.length = 0 then
          (Outcome.err (GoError.errorf "no matching network interface found"), d, w1)
        else if out.NetworkInterfaces.length > 1 then
          (Outcome.err (GoError.errorf
            "Your query returned more than one result. Please try a more specific search criteria"),
            d, w1)
        else
          match out.NetworkInterfaces with
          | [] => (Outcome.panic, d, w1)
          | eni :: _ =>
            ((setNetworkInterface verdict h client.IgnoreTagsConfig eni d).1,
              (setNetworkInterface verdict h client.IgnoreTagsConfig eni d).2, w1)

/-! ## The schema of the network interface data source -/

/-- `schema.ValueType`. -/
inductive ValueType where
  | TypeBool
  | TypeInt
  | TypeFloat
  | TypeString
  | TypeList
  | TypeMap
  | TypeSet
deriving DecidableEq, Repr

/-- `schema.Schema`, the fields the data source declares: `Type`, `Optional`,
`Computed` and `Elem`. -/
inductive Schema where
  /-- A schema without `Elem`. -/
  | plain (type : ValueType) (Optional Computed : Bool)
  /-- A schema with `Elem: &schema.Schema{...}`. -/
  | ofSchema (type : ValueType) (Optional Computed : Bool) (Elem : Schema)
  /-- A schema with `Elem: &schema.Resource{Schema: ...}`. -/
  | ofResource (type : ValueType) (Optional Computed : Bool) (Elem : List (String × Schema))

/-- The `Schema` map of the resource returned by `DataSourceNetworkInterface`,
entry by entry. `DataSourceFiltersSchema()` and `tftags.TagsSchemaComputed()`
are defined outside `network_interface_data_source.go` and are taken as
given. -/
def DataSourceNetworkInterface (DataSourceFiltersSchema TagsSchemaComputed : Schema) :
    List (String × Schema) :=
  [ ("id", Schema.plain ValueType.TypeString true true),
    ("filter", DataSourceFiltersSchema),
    ("association", Schema.ofResource ValueType.TypeList false true
      [ ("allocation_id", Schema.plain ValueType.TypeString false true),
        ("association_id", Schema.plain ValueType.TypeString false true),
        ("carrier_ip", Schema.plain ValueType.TypeString false true),
        ("customer_owned_ip", Schema.plain ValueType.TypeString false true),
        ("ip_owner_id", Schema.plain ValueType.TypeString false true),
        ("public_dns_name", Schema.plain ValueType.TypeString false true),
        ("public_ip", Schema.plain ValueType.TypeString false true) ]),
    ("attachment", Schema.ofResource ValueType.TypeList false true
      [ ("attachment_id", Schema.plain ValueType.TypeString false true),
        ("device_index", Schema.plain ValueType.TypeInt false true),
        ("instance_id", Schema.plain ValueType.TypeString false true),
        ("instance_owner_id", Schema.plain ValueType.TypeString false true) ]),
    ("availability_zone", Schema.plain ValueType.TypeString false true),
    ("description", Schema.plain ValueType.TypeString false true),
    ("security_groups", Schema.ofSchema ValueType.TypeSet false true
      (Schema.plain ValueType.TypeString false false)),
    ("interface_type", Schema.plain ValueType.TypeString false true),
    ("ipv6_addresses", Schema.ofSchema ValueType.TypeSet false true
      (Schema.plain ValueType.TypeString false false)),
    ("mac_address", Schema.plain ValueType.TypeString false true),
    ("owner_id", Schema.plain ValueType.TypeString false true),
    ("private_dns_name", Schema.plain ValueType.TypeString false true),
    ("private_ip", Schema.plain ValueType.TypeString false true),
    ("private_ips", Schema.ofSchema ValueType.TypeList false true
      (Schema.plain ValueType.TypeString false false)),
    ("requester_id", Schema.plain ValueType.TypeString false true),
    ("subnet_id", Schema.plain ValueType.TypeString false true),
    ("outpost_arn", Schema.plain ValueType.TypeString false true),
    ("vpc_id", Schema.plain ValueType.TypeString false true),
    ("tags", TagsSchemaComputed) ]

/-- The calls `d.Set(key, value)` that `dataSourceNetworkInterfaceRead` makes
for the interface `eni`, in order: the key and the value of each. -/
def networkInterfaceSetCalls {T : SdkTypes} (h : Helpers T) (ignoreTagsConfig : T.IgnoreConfig)
    (eni : NetworkInterface T) : List (String × Value) :=
  (match eni.Association with
    | some a => [("association", h.flattenNetworkInterfaceAssociation a)]
    | none => []) ++
  (match eni.Attachment with
    | some a => [("attachment", Value.list [h.FlattenAttachment a])]
    | none => []) ++
  [ ("availability_zone", Value.strPtr eni.AvailabilityZone),
    ("description", Value.strPtr eni.Description),
    ("security_groups", h.FlattenGroupIdentifiers eni.Groups),
    ("interface_type", Value.strPtr eni.InterfaceType),
    ("ipv6_addresses", h.flattenNetworkInterfaceIPv6Address eni.Ipv6Addresses),
    ("mac_address", Value.strPtr eni.MacAddress),
    ("owner_id", Value.strPtr eni.OwnerId),
    ("private_dns_name", Value.strPtr eni.PrivateDnsName),
    ("private_ip", Value.strPtr eni.PrivateIpAddress),
    ("private_ips", h.FlattenNetworkInterfacesPrivateIPAddresses eni.PrivateIpAddresses),
    ("requester_id", Value.strPtr eni.RequesterId),
    ("subnet_id", Value.strPtr eni.SubnetId),
    ("outpost_arn", Value.strPtr eni.OutpostArn),
    ("vpc_id", Value.strPtr eni.VpcId),
    ("tags", h.Map (h.IgnoreConfig (h.IgnoreAWS (h.KeyValueTags eni.TagSet))
      ignoreTagsConfig)) ]

/-- The read can write the attribute `k` with `d.Set`: for some interface,
one of the `d.Set` calls that the read makes has the key `k`. The write of
the attribute `id` by `d.SetId` is not a `d.Set` call. -/
def CanWrite (k : String) : Prop :=
  ∃ (T : SdkTypes) (h : Helpers T) (ignoreTagsConfig : T.IgnoreConfig)
    (eni : NetworkInterface T) (v : Value),
    (k, v) ∈ networkInterfaceSetCalls h ignoreTagsConfig eni

/-! ## EC2 Spot Fleet request checks -/

/-- A Go `*string` that is not nil: the address it holds and the string
stored there. -/
structure StringPtr where
  addr : Nat
  val : String
deriving DecidableEq, Repr

/-- Go `==` on two `*string`: both nil, or both the same address. -/
def ptrEq : Option StringPtr → Option StringPtr → Bool
  | none, none => true
  | some p, some q => p.addr == q.addr
  | _, _ => false

/-- `ec2.BlockDeviceMapping`, the field the checks read. -/
structure BlockDeviceMapping where
  DeviceName : Option String
deriving DecidableEq, Repr

/-- `ec2.IamInstanceProfileSpecification`, the field the checks read. -/
structure IamInstanceProfileSpecification where
  Arn : Option String
deriving DecidableEq, Repr

/-- `ec2.SpotPlacement`, the fields the checks read. -/
structure SpotPlacement where
  Tenancy : Option String
  GroupName : Option String
deriving DecidableEq, Repr

/-- `ec2.SpotFleetLaunchSpecification`, the fields the checks read. -/
structure SpotFleetLaunchSpecification where
  BlockDeviceMappings : List BlockDeviceMapping
  IamInstanceProfile : Option IamInstanceProfileSpecification
  Placement : Option SpotPlacement
deriving DecidableEq, Repr

/-- `ec2.SpotFleetRequestConfigData`, the field the checks read; the
elements of `LaunchSpecifications` are taken to be non-nil. -/
structure SpotFleetRequestConfigData where
  LaunchSpecifications : List SpotFleetLaunchSpecification
deriving DecidableEq, Repr

/-- `ec2.SpotFleetRequestConfig`, the fields the checks read.
`SpotFleetRequestId` is a `*string`, kept with its address because the
checks compare it with `==`. -/
structure SpotFleetRequestConfig where
  SpotFleetRequestConfig : Option SpotFleetRequestConfigData
  SpotFleetRequestId : Option StringPtr
deriving DecidableEq, Repr

/-- `ec2.DescribeSpotFleetRequestsInput`. -/
structure DescribeSpotFleetRequestsInput where
  SpotFleetRequestIds : List String
deriving DecidableEq, Repr

/-- `ec2.DescribeSpotFleetRequestsOutput`; the elements of
`SpotFleetRequestConfigs` are taken to be non-nil. -/
structure DescribeSpotFleetRequestsOutput where
  SpotFleetRequestConfigs : List SpotFleetRequestConfig
deriving DecidableEq, Repr

/-- `conn.DescribeSpotFleetRequests` as a step of the remote service. -/
abbrev SpotFleetConn (σ : Type) :=
  σ → DescribeSpotFleetRequestsInput → Except SdkError DescribeSpotFleetRequestsOutput × σ

/-- The world of the Spot Fleet checks. -/
abbrev SpotFleetWorld (σ : Type) := World σ DescribeSpotFleetRequestsInput

/-- What a check function does to the test: it returns, or it stops the test
as failed with `t.Fatalf(format, arg)`. -/
inductive CheckResult where
  | returned (o : Outcome)
  | fatalf (format : String) (arg : Option StringPtr)
deriving DecidableEq, Repr

/-- The check function returned by
`testAccCheckSpotFleetRequestRecreatedConfig(t, before, after)`. -/
def testAccCheckSpotFleetRequestRecreatedConfig (before after : SpotFleetRequestConfig) :
    CheckResult :=
  if ptrEq before.SpotFleetRequestId after.SpotFleetRequestId then
    CheckResult.fatalf "Expected change of Spot Fleet Request IDs, but both were %v"
      before.SpotFleetRequestId
  else CheckResult.returned Outcome.nil

/-- The check function returned by `testAccCheckSpotFleetRequestExists(n, sfr)`,
applied to a state; the second component is `*sfr` after the check.
`errors.New` is modelled like `fmt.Errorf`. -/
def testAccCheckSpotFleetRequestExists {σ : Type} (conn : SpotFleetConn σ) (n : String)
    (sfr : SpotFleetRequestConfig) (s : State) (w : SpotFleetWorld σ) :
    Outcome × SpotFleetRequestConfig × SpotFleetWorld σ :=
  match s.lookup n with
  | none => (Outcome.err (GoError.errorf ("Not found: " ++ n)), sfr, w)
  | some rs =>
    if rs.PrimaryID = "" then
      (Outcome.err (GoError.errorf "No Spot fleet request with that id exists"), sfr, w)
    else
      match w.call conn { SpotFleetRequestIds := [rs.PrimaryID] } with
      | (Except.error e, w1) => (Outcome.err (GoError.sdk e), sfr, w1)
      | (Except.ok resp, w1) =>
        if resp.SpotFleetRequestConfigs.length ≠ 1 then
          (Outcome.err (GoError.errorf
            ("Expected 1 request returned, got " ++
              toString resp.SpotFleetRequestConfigs.length)), sfr, w1)
        else
          match resp.SpotFleetRequestConfigs with
          | [] => (Outcome.panic, sfr, w1)
          | config :: _ => (Outcome.nil, config, w1)

/-! ## Regular expressions (Go `regexp`, the constructs the tests use) -/

/-- A character class: inclusive ranges, possibly negated. -/
structure CharClass where
  ranges : List (Char × Char)
  negated : Bool
deriving DecidableEq, Repr

/-- Whether the class holds the character. -/
def CharClass.holds (cl : CharClass) (c : Char) : Bool :=
  (cl.ranges.any (fun r => decide (r.1.toNat ≤ c.toNat) && decide (c.toNat ≤ r.2.toNat)))
    != cl.negated

/-- The syntax of a compiled pattern. -/
inductive Regex where
  /-- Matches no string. -/
  | fail
  /-- Matches the empty string. -/
  | eps
  /-- Matches one character of the class. -/
  | cls (c : CharClass)
  | seq (a b : Regex)
  | alt (a b : Regex)
  | star (a : Regex)
deriving DecidableEq, Repr

/-- Whether the pattern matches the empty string. -/
def Regex.nullable : Regex → Bool
  | Regex.fail => false
  | Regex.eps => true
  | Regex.cls _ => false
  | Regex.seq a b => a.nullable && b.nullable
  | Regex.alt a b => a.nullable || b.nullable
  | Regex.star _ => true

/-- Sequence, with the trivial cases simplified. -/
def Regex.mkSeq : Regex → Regex → Regex
  | Regex.fail, _ => Regex.fail
  | Regex.eps, b => b
  | a, b => Regex.seq a b

/-- Alternative, with the trivial cases simplified. -/
def Regex.mkAlt : Regex → Regex → Regex
  | Regex.fail, b => b
  | a, Regex.fail => a
  | a, b => Regex.alt a b

/-- The pattern for what may follow the character `c`. -/
def Regex.deriv (c : Char) : Regex → Regex
  | Regex.fail => Regex.fail
  | Regex.eps => Regex.fail
  | Regex.cls k => if k.holds c then Regex.eps else Regex.fail
  | Regex.seq a b =>
    if a.nullable then Regex.mkAlt (Regex.mkSeq (Regex.deriv c a) b) (Regex.deriv c b)
    else Regex.mkSeq (Regex.deriv c a) b
  | Regex.alt a b => Regex.mkAlt (Regex.deriv c a) (Regex.deriv c b)
  | Regex.star a => Regex.mkSeq (Regex.deriv c a) (Regex.star a)

/-- Whether the pattern matches the whole list of characters. -/
def Regex.matchesAll (r : Regex) (s : List Char) : Bool :=
  (s.foldl (fun q c => Regex.deriv c q) r).nullable

/-- The strings a pattern matches as a whole. -/
inductive Regex.Matches : Regex → List Char → Prop where
  | eps : Regex.Matches Regex.eps []
  | cls (k : CharClass) (c : Char) (hc : k.holds c = true) : Regex.Matches (Regex.cls k) [c]
  | seq (a b : Regex) (s t : List Char) (ha : Regex.Matches a s) (hb : Regex.Matches b t) :
    Regex.Matches (Regex.seq a b) (s ++ t)
  | altLeft (a b : Regex) (s : List Char) (ha : Regex.Matches a s) :
    Regex.Matches (Regex.alt a b) s
  | altRight (a b : Regex) (s : List Char) (hb : Regex.Matches b s) :
    Regex.Matches (Regex.alt a b) s
  | starNil (a : Regex) : Regex.Matches (Regex.star a) []
  | starCons (a : Regex) (s t : List Char) (ha : Regex.Matches a s)
    (ht : Regex.Matches (Regex.star a) t) : Regex.Matches (Regex.star a) (s ++ t)

/-- The characters of a literal, one after the other. -/
def Regex.lit (s : String) : Regex :=
  s.data.foldr (fun c r => Regex.seq (Regex.cls { ranges := [(c, c)], negated := false }) r)
    Regex.eps

/-- The pattern `a{n}`. -/
def Regex.times : Nat → Regex → Regex
  | 0, _ => Regex.eps
  | n + 1, a => Regex.seq a (Regex.times n a)

/-- The pattern `a?`. -/
def Regex.opt (a : Regex) : Regex := Regex.alt a Regex.eps

/-- The pattern `\d`. -/
def Regex.digit : Regex := Regex.cls { ranges := [('0', '9')], negated := false }

/-- The pattern `.`: any character but the line feed. -/
def Regex.dot : Regex := Regex.cls { ranges := [('\n', '\n')], negated := true }

/-- Any character at all. -/
def Regex.anyRune : Regex := Regex.cls { ranges := [], negated := true }

/-- `re.MatchString(s)`: some substring of `s` matches the pattern. -/
def MatchString (re : Regex) (s : String) : Bool :=
  Regex.matchesAll
    (Regex.seq (Regex.star Regex.anyRune) (Regex.seq re (Regex.star Regex.anyRune))) s.data

/-- The pattern compiled in `testAccCheckSpotFleetRequest_IAMInstanceProfileARN`,
`arn:%s:iam::\d{12}:instance-profile/?[a-zA-Z0-9+=,.@-_].*` with the partition
in place of `%s`; the partition (`acctest.Partition()`) is taken to hold no
character with a meaning in a pattern. In the class, `@-_` is the range from
`@` to `_`. -/
def instanceProfileARNPattern (partition : String) : Regex :=
  Regex.seq (Regex.lit "arn:")
    (Regex.seq (Regex.lit partition)
      (Regex.seq (Regex.lit ":iam::")
        (Regex.seq (Regex.times 12 Regex.digit)
          (Regex.seq (Regex.lit ":instance-profile")
            (Regex.seq (Regex.opt (Regex.lit "/"))
              (Regex.seq
                (Regex.cls { ranges := [('a', 'z'), ('A', 'Z'), ('0', '9'), ('+', '+'),
                  ('=', '='), (',', ','), ('.', '.'), ('@', '_')], negated := false })
                (Regex.star Regex.dot)))))))

/-- The check function returned by
`testAccCheckSpotFleetRequest_IAMInstanceProfileARN(sfr)`, for the partition
that `acctest.Partition()` returns. Dereferencing a nil pointer is a panic. -/
def testAccCheckSpotFleetRequest_IAMInstanceProfileARN (partition : String)
    (sfr : SpotFleetRequestConfig) : Outcome :=
  match sfr.SpotFleetRequestConfig with
  | none => Outcome.panic
  | some config =>
    if config.LaunchSpecifications.length = 0 then
      Outcome.err (GoError.errorf "Missing launch specification")
    else
      match config.LaunchSpecifications with
      | [] => Outcome.panic
      | spec :: _ =>
        match spec.IamInstanceProfile with
        | none => Outcome.err (GoError.errorf "Expected IamInstanceProfile to be set, got nil")
        | some profile =>
          match profile.Arn with
          | none => Outcome.panic
          | some arn =>
            if !(MatchString (instanceProfileARNPattern partition) arn) then
              Outcome.err (GoError.errorf
                ("Expected IamInstanceProfile input as ARN, got " ++ arn))
            else Outcome.nil

/-! ## Spot Fleet test configurations -/

/-- An expression of a Terraform configuration, as the test configurations
write it. -/
inductive HclExpr where
  /-- A string literal written in the template, such as `"0.05"`. -/
  | str (s : String)
  /-- A string argument formatted with `%q`. -/
  | quoted (s : String)
  /-- A number literal. -/
  | num (n : Nat)
  /-- `true` or `false`. -/
  | bool (b : Bool)
  /-- A reference such as `aws_iam_role.test.arn`. -/
  | ref (path : String)
  /-- A list `[...]`. -/
  | list (items : List HclExpr)
  /-- A quoted template: the text between the quotes, after `fmt.Sprintf` has
  put the arguments in place of the `%s` verbs. -/
  | template (text : String)

/-- The brace that opens an interpolation or a directive in a template. -/
def hclBrace : Char := Char.ofNat 123

/-- The characters that cannot stand as they are in a quoted template: the
double quote, the backslash, the line feed and the carriage return. -/
def hclBad (c : Char) : Bool :=
  c == Char.ofNat 34 || c == Char.ofNat 92 || c == Char.ofNat 10 || c == Char.ofNat 13

/-- The characters that start a template sequence when a brace follows. -/
def hclSigil (c : Char) : Bool := c == '$' || c == '%'

/-- The string that Terraform reads from a quoted template, given the text
between the quotes: a doubled sigil before a brace is the escape for the
sigil and the brace, every other character stands for itself. `none` when
the text is not a literal: it holds an interpolation or a directive (a sigil
right before a brace), or a double quote, a backslash or a line break. -/
def hclQuotedValue : List Char → Option (List Char)
  | [] => some []
  | c :: rest =>
    let plainStep := (hclQuotedValue rest).map (fun v => c :: v)
    if hclBad c then none
    else if hclSigil c && rest.head? == some hclBrace then none
    else
      match rest with
      | x :: y :: rest3 =>
        if hclSigil c && x == c && y == hclBrace then
          (hclQuotedValue rest3).map (fun v => c :: hclBrace :: v)
        else plainStep
      | _ => plainStep

/-- The texts that a quoted template reads back unchanged: no double quote,
backslash or line break, and no sigil right before a brace. -/
def hclPlain : List Char → Bool
  | [] => true
  | c :: rest =>
    !hclBad c && !(hclSigil c && rest.head? == some hclBrace) && hclPlain rest

/-- The string value of an expression, for string literals and quoted
templates. -/
def hclStringValue : HclExpr → Option String
  | HclExpr.str s => some s
  | HclExpr.template text => (hclQuotedValue text.data).map String.mk
  | _ => none

/-- An item of a Terraform block: an attribute `name = expr`, or a nested
block. -/
inductive HclItem where
  | attr (name : String) (expr : HclExpr)
  | block (name : String) (body : List HclItem)

/-- A Spot Fleet test configuration: the text of
`testAccSpotFleetRequestBaseConfig(rName, publicKey)`, followed by the block
`resource "aws_spot_fleet_request" "test"`. -/
structure SpotFleetTestConfig where
  base : String
  request : List HclItem

/-- The value of the attribute `name` of a block: the first assignment to
it. -/
def hclAttribute (name : String) : List HclItem → Option HclExpr
  | [] => none
  | HclItem.attr n e :: rest => if n = name then some e else hclAttribute name rest
  | HclItem.block _ _ :: rest => hclAttribute name rest

/-- The names of the attributes of a block, in order. -/
def hclAttributeNames : List HclItem → List String
  | [] => []
  | HclItem.attr n _ :: rest => n :: hclAttributeNames rest
  | HclItem.block _ _ :: rest => hclAttributeNames rest

/-- The configuration `testAccSpotFleetRequestConfig(rName, publicKey,
validUntil)`; `baseConfig` is `testAccSpotFleetRequestBaseConfig`, which
composes configurations defined outside the test file. -/
def testAccSpotFleetRequestConfig (baseConfig : String → String → String)
    (rName publicKey validUntil : String) : SpotFleetTestConfig where
  base := baseConfig rName publicKey
  request :=
    [ HclItem.attr "iam_fleet_role" (HclExpr.ref "aws_iam_role.test.arn"),
      HclItem.attr "spot_price" (HclExpr.str "0.05"),
      HclItem.attr "target_capacity" (HclExpr.num 2),
      HclItem.attr "valid_until" (HclExpr.quoted validUntil),
      HclItem.attr "terminate_instances_with_expiration" (HclExpr.bool true),
      HclItem.attr "instance_interruption_behaviour" (HclExpr.str "stop"),
      HclItem.attr "wait_for_fulfillment" (HclExpr.bool true),
      HclItem.block "launch_specification"
        [ HclItem.attr "instance_type"
            (HclExpr.ref "data.aws_ec2_instance_type_offering.available.instance_type"),
          HclItem.attr "ami" (HclExpr.ref "data.aws_ami.amzn-ami-minimal-hvm-ebs.id"),
          HclItem.attr "key_name" (HclExpr.ref "aws_key_pair.test.key_name") ],
      HclItem.attr "depends_on"
        (HclExpr.list [HclExpr.ref "aws_iam_policy_attachment.test"]) ]

/-- The configuration `testAccSpotFleetRequestChangeSpotBidPriceConfig(rName,
publicKey, validUntil)`. -/
def testAccSpotFleetRequestChangeSpotBidPriceConfig (baseConfig : String → String → String)
    (rName publicKey validUntil : String) : SpotFleetTestConfig where
  base := baseConfig rName publicKey
  request :=
    [ HclItem.attr "iam_fleet_role" (HclExpr.ref "aws_iam_role.test.arn"),
      HclItem.attr "spot_price" (HclExpr.str "0.05"),
      HclItem.attr "target_capacity" (HclExpr.num 2),
      HclItem.attr "valid_until" (HclExpr.quoted validUntil),
      HclItem.attr "terminate_instances_with_expiration" (HclExpr.bool true),
      HclItem.attr "wait_for_fulfillment" (HclExpr.bool true),
      HclItem.block "launch_specification"
        [ HclItem.attr "instance_type"
            (HclExpr.ref "data.aws_ec2_instance_type_offering.available.instance_type"),
          HclItem.attr "ami" (HclExpr.ref "data.aws_ami.amzn-ami-minimal-hvm-ebs.id"),
          HclItem.attr "key_name" (HclExpr.ref "aws_key_pair.test.key_name") ],
      HclItem.attr "depends_on"
        (HclExpr.list [HclExpr.ref "aws_iam_policy_attachment.test"]) ]

/-! ## Spot Fleet launch specification checks -/

/-- `ec2.TenancyDedicated`. -/
def TenancyDedicated : String := "dedicated"

/-- The check function returned by
`testAccCheckSpotFleetRequest_EBSAttributes(sfr)`. Dereferencing a nil
pointer is a panic. -/
def testAccCheckSpotFleetRequest_EBSAttributes (sfr : SpotFleetRequestConfig) : Outcome :=
  match sfr.SpotFleetRequestConfig with
  | none => Outcome.panic
  | some config =>
    if config.LaunchSpecifications.length = 0 then
      Outcome.err (GoError.errorf "Missing launch specification")
    else
      match config.LaunchSpecifications with
      | [] => Outcome.panic
      | spec :: _ =>
        if spec.BlockDeviceMappings.length < 2 then
          Outcome.err (GoError.errorf
            ("Expected 2 block device mappings, got " ++
              toString spec.BlockDeviceMappings.length))
        else
          match spec.BlockDeviceMappings with
          | ebs0 :: ebs1 :: _ =>
            match ebs0.DeviceName with
            | none => Outcome.panic
            | some name0 =>
              if name0 ≠ "/dev/xvda" then
                Outcome.err (GoError.errorf
                  ("Expected device 0's name to be /dev/xvda, got " ++ name0))
              else
                match ebs1.DeviceName with
                | none => Outcome.panic
                | some name1 =>
                  if name1 ≠ "/dev/xvdcz" then
                    Outcome.err (GoError.errorf
                      ("Expected device 1's name to be /dev/xvdcz, got " ++ name1))
                  else Outcome.nil
          | _ => Outcome.panic

/-- The check function returned by
`testAccCheckSpotFleetRequest_PlacementAttributes(sfr, rName)`; `quote` is
the formatting of a string by `%q`. Dereferencing a nil pointer is a
panic. -/
def testAccCheckSpotFleetRequest_PlacementAttributes (quote : String → String)
    (sfr : SpotFleetRequestConfig) (rName : String) : Outcome :=
  match sfr.SpotFleetRequestConfig with
  | none => Outcome.panic
  | some config =>
    if config.LaunchSpecifications.length = 0 then
      Outcome.err (GoError.errorf "Missing launch specification")
    else
      match config.LaunchSpecifications with
      | [] => Outcome.panic
      | spec :: _ =>
        match spec.Placement with
        | none => Outcome.err (GoError.errorf "Expected placement to be set, got nil")
        | some placement =>
          match placement.Tenancy with
          | none => Outcome.panic
          | some tenancy =>
            if tenancy ≠ TenancyDedicated then
              Outcome.err (GoError.errorf
                ("Expected placement tenancy to be " ++ quote "dedicated" ++ ", got " ++
                  quote tenancy))
            else if StringValue placement.GroupName ≠ "test-pg-" ++ rName then
              Outcome.err (GoError.errorf
                ("Expected placement group to be " ++ quote ("test-pg-" ++ rName) ++
                  ", got " ++ quote (StringValue placement.GroupName)))
            else Outcome.nil

/-- A `resource "<type>" "<name>"` block of a test configuration. -/
structure HclResource where
  type : String
  name : String
  body : List HclItem

/-- A test configuration with several resources: the text of
`testAccSpotFleetRequestBaseConfig(rName, publicKey)`, followed by the
resource blocks in order. -/
structure SpotFleetResourcesConfig where
  base : String
  resources : List HclResource

/-- The body of the first resource block of the given type and name. -/
def hclResourceBody (type name : String) : List HclResource → Option (List HclItem)
  | [] => none
  | r :: rest => if r.type = type ∧ r.name = name then some r.body else
      hclResourceBody type name rest

/-- The configuration `testAccSpotFleetRequestTenancyGroupConfig(rName,
publicKey, validUntil)`; in the name of the placement group, `rName` is put
as it is in place of `%[1]s`, between the quotes of the template. -/
def testAccSpotFleetRequestTenancyGroupConfig (baseConfig : String → String → String)
    (rName publicKey validUntil : String) : SpotFleetResourcesConfig where
  base := baseConfig rName publicKey
  resources :=
    [ { type := "aws_placement_group", name := "test",
        body :=
          [ HclItem.attr "name" (HclExpr.template ("test-pg-" ++ rName)),
            HclItem.attr "strategy" (HclExpr.str "cluster") ] },
      { type := "aws_spot_fleet_request", name := "test",
        body :=
          [ HclItem.attr "iam_fleet_role" (HclExpr.ref "aws_iam_role.test.arn"),
            HclItem.attr "spot_price" (HclExpr.str "0.05"),
            HclItem.attr "target_capacity" (HclExpr.num 2),
            HclItem.attr "valid_until" (HclExpr.quoted validUntil),
            HclItem.attr "terminate_instances_with_expiration" (HclExpr.bool true),
            HclItem.block "launch_specification"
              [ HclItem.attr "instance_type"
                  (HclExpr.ref "data.aws_ec2_instance_type_offering.available.instance_type"),
                HclItem.attr "ami" (HclExpr.ref "data.aws_ami.amzn-ami-minimal-hvm-ebs.id"),
                HclItem.attr "key_name" (HclExpr.ref "aws_key_pair.test.key_name"),
                HclItem.attr "placement_tenancy" (HclExpr.str "dedicated"),
                HclItem.attr "placement_group" (HclExpr.ref "aws_placement_group.test.name") ],
            HclItem.attr "depends_on"
              (HclExpr.list [HclExpr.ref "aws_iam_policy_attachment.test"]) ] } ]

/-! ## The destroy check in words -/

/-- The condition under which the destroy check passes, as the specification
words it: for every resource of type
`aws_directory_service_conditional_forwarder`, taken in iteration order, the
ID decodes and the describe call for it (made in the world that the earlier
calls left) either reports `EntityDoesNotExistException` or succeeds with
zero forwarders; resources of another type put no condition. -/
def allForwardersGone {σ : Type} (parse : IDParser) (conn : DirectoryServiceConn σ) :
    State → DSWorld σ → Prop
  | [], _ => True
  | (_, rs) :: rest, w =>
    if rs.rsType = "aws_directory_service_conditional_forwarder" then
      ∃ directoryId domainName,
        parse rs.PrimaryID = Except.ok (directoryId, domainName) ∧
        ((∃ e, (w.call conn ⟨directoryId, [domainName]⟩).1 = Except.error e ∧
            e.code = ErrCodeEntityDoesNotExistException) ∨
          (∃ res, (w.call conn ⟨directoryId, [domainName]⟩).1 = Except.ok res ∧
            res.ConditionalForwarders = [])) ∧
        allForwardersGone parse conn rest (w.call conn ⟨directoryId, [domainName]⟩).2
    else allForwardersGone parse conn rest w

/-! ## Fixtures -/

/-- A directory service that knows no conditional forwarder. -/
def emptyDirectoryService : DirectoryServiceConn Unit :=
  fun _ _ => (Except.ok { ConditionalForwarders := [] }, ())

/-- SDK types for the examples: every payload is a string. -/
def plainTypes : SdkTypes where
  NetworkInterfaceAssociation := String
  NetworkInterfaceAttachment := String
  GroupIdentifier := String
  NetworkInterfaceIpv6Address := String
  NetworkInterfacePrivateIpAddress := String
  Tag := String × String
  Filter := String
  KeyValueTags := List (String × String)
  IgnoreConfig := List String

/-- Helpers for the examples: payloads are written as strings, tags whose
key is in the ignore list or starts with `aws:` are dropped. -/
def plainHelpers : Helpers plainTypes where
  BuildFiltersDataSource := fun vs =>
    vs.map (fun v => match v with
      | Value.str s => s
      | _ => "")
  flattenNetworkInterfaceAssociation := fun (a : String) => Value.list [Value.str a]
  FlattenAttachment := fun (a : String) => Value.map [("attachment_id", Value.str a)]
  FlattenGroupIdentifiers := fun (gs : List String) => Value.list (gs.map Value.str)
  flattenNetworkInterfaceIPv6Address := fun (xs : List String) => Value.list (xs.map Value.str)
  FlattenNetworkInterfacesPrivateIPAddresses :=
    fun (xs : List String) => Value.list (xs.map Value.str)
  KeyValueTags := fun (ts : List (String × String)) => ts
  IgnoreAWS := fun (ts : List (String × String)) =>
    ts.filter (fun t => !("aws:".data.isPrefixOf t.1.data))
  IgnoreConfig := fun (ts : List (String × String)) (cfg : List String) =>
    ts.filter (fun t => !(cfg.contains t.1))
  Map := fun (ts : List (String × String)) => Value.map (ts.map (fun t => (t.1, Value.str t.2)))

/-- An EC2 service that gives the same answer to every request. -/
def fixedEC2 (answer : Except SdkError (Option (DescribeNetworkInterfacesOutput plainTypes))) :
    AWSClient plainTypes Unit where
  EC2Conn := fun _ _ => (answer, ())
  IgnoreTagsConfig := []

/-- A host framework that accepts every write. -/
def acceptAll : SetVerdict := fun _ _ => none

/-- Resource data with nothing configured and no ID. -/
def emptyData : ResourceData where
  id := ""
  attrs := fun _ => none

/-- A network interface with an ID and nothing else. -/
def sampleInterface (id : Option String) : NetworkInterface plainTypes where
  NetworkInterfaceId := id
  Association := none
  Attachment := none
  AvailabilityZone := none
  Description := none
  Groups := []
  InterfaceType := none
  Ipv6Addresses := []
  MacAddress := none
  OwnerId := none
  PrivateDnsName := none
  PrivateIpAddress := none
  PrivateIpAddresses := []
  RequesterId := none
  SubnetId := none
  OutpostArn := none
  VpcId := none
  TagSet := []

/-- The world before any request. -/
def freshWorld {ι : Type} : World Unit ι where
  remote := ()
  calls := []

/-- Resource data whose configured `id` is the given string. -/
def dataWithId (id : String) : ResourceData where
  id := ""
  attrs := fun k => if k = "id" then some (Value.str id) else none

/-- The request built from `dataWithId id` for a non-empty `id`. -/
def requestById (id : String) : DescribeNetworkInterfacesInput plainTypes where
  NetworkInterfaceIds := some [id]
  Filters := none

/-- A directory service with one conditional forwarder, whose DNS addresses
are the given ones, for every request. -/
def oneForwarder (addrs : List String) : DirectoryServiceConn Unit :=
  fun _ _ => (Except.ok { ConditionalForwarders := [{ DnsIpAddrs := addrs }] }, ())

/-- The state of the acceptance test: the forwarder `fwd` with the given ID. -/
def forwarderState (id : String) : State :=
  [("aws_directory_service_conditional_forwarder.fwd",
    { rsType := "aws_directory_service_conditional_forwarder", PrimaryID := id })]

/-- Resource data with a configured `id` and a configured `filter` set. -/
def dataWithIdAndFilter (id : String) (filter : List Value) : ResourceData where
  id := ""
  attrs := fun k =>
    if k = "id" then some (Value.str id)
    else if k = "filter" then some (Value.set filter)
    else none

/-- A host framework that rejects every write but the one of `tags`. -/
def rejectAllButTags : SetVerdict := fun k _ => if k = "tags" then none else some "rejected"

/-- A host framework that rejects the write of `tags` only. -/
def rejectTags : SetVerdict := fun k _ => if k = "tags" then some "tags: bad value" else none

/-- A network interface with an ID and an attachment. -/
def attachedInterface (id attachment : String) : NetworkInterface plainTypes :=
  { sampleInterface (some id) with Attachment := some attachment }

/-- A network interface with an ID, an association and an attachment. -/
def fullInterface : NetworkInterface plainTypes :=
  { sampleInterface (some "eni-1") with
    Association := some "eipassoc-1"
    Attachment := some "eni-attach-1" }

/-- A Spot Fleet service that answers every request with one configuration
of the given request ID, the ID stored at a new address each time (the
remote state counts the answers). -/
def sameRequestId (id : String) : SpotFleetConn Nat :=
  fun n _ =>
    (Except.ok { SpotFleetRequestConfigs :=
      [{ SpotFleetRequestConfig := none, SpotFleetRequestId := some { addr := n, val := id } }] },
      n + 1)

/-- The state of the Spot Fleet tests: the request `test` with the given ID. -/
def spotFleetState (id : String) : State :=
  [("aws_spot_fleet_request.test", { rsType := "aws_spot_fleet_request", PrimaryID := id })]

/-- A Spot Fleet request configuration before any check has filled it. -/
def zeroSpotFleetRequestConfig : SpotFleetRequestConfig where
  SpotFleetRequestConfig := none
  SpotFleetRequestId := none

/-- A Spot Fleet request configuration with one launch specification whose
instance profile has the given ARN. -/
def configWithProfileArn (arn : String) : SpotFleetRequestConfig where
  SpotFleetRequestConfig := some { LaunchSpecifications :=
    [{ BlockDeviceMappings := [], IamInstanceProfile := some { Arn := some arn },
       Placement := none }] }
  SpotFleetRequestId := none

/-- A directory service that reports `EntityDoesNotExistException` for every
request. -/
def goneDirectoryService : DirectoryServiceConn Unit :=
  fun _ _ => (Except.error { code := "EntityDoesNotExistException", message := "" }, ())

/-- A Spot Fleet request configuration with the given request ID and no
configuration data. -/
def configWithId (addr : Nat) (id : String) : SpotFleetRequestConfig where
  SpotFleetRequestConfig := none
  SpotFleetRequestId := some { addr := addr, val := id }

/-- A Spot Fleet request configuration with one launch specification whose
block device mappings have the given device names. -/
def configWithDevices (names : List String) : SpotFleetRequestConfig where
  SpotFleetRequestConfig := some { LaunchSpecifications :=
    [{ BlockDeviceMappings := names.map (fun n => { DeviceName := some n }),
       IamInstanceProfile := none, Placement := none }] }
  SpotFleetRequestId := none

/-- A Spot Fleet request configuration with one launch specification whose
placement has the given tenancy and group name. -/
def configWithPlacement (tenancy group : String) : SpotFleetRequestConfig where
  SpotFleetRequestConfig := some { LaunchSpecifications :=
    [{ BlockDeviceMappings := [], IamInstanceProfile := none,
       Placement := some { Tenancy := some tenancy, GroupName := some group } }] }
  SpotFleetRequestId := none

/-- A stand-in for the formatting by `%q`: the string between double
quotes, without escapes. -/
def plainQuote (s : String) : String :=
  String.mk (Char.ofNat 34 :: s.data ++ [Char.ofNat 34])

/-! ## Properties of the codec -/

/-- No part produced by splitting on `x` contains `x`. -/
theorem not_mem_of_mem_splitOn {α : Type} [DecidableEq α] (x : α) (xs : List α) :
    ∀ l ∈ xs.splitOn x, x ∉ l := by
  unfold List.splitOn
  induction xs with
  | nil => simp
  | cons hd tl ih =>
    rw [List.splitOnP_cons]
    cases hrest : List.splitOnP (fun y => y == x) tl with
    | nil => exact absurd hrest (List.splitOnP_ne_nil _ _)
    | cons r rs =>
      rw [hrest] at ih
      by_cases hx : hd = x
      · subst hx
        intro l hl
        simp only [beq_self_eq_true, if_true, List.mem_cons] at hl
        rcases hl with rfl | hl
        · simp
        · exact ih l (by simpa using hl)
      · intro l hl
        have hb : (hd == x) = false := by simpa using hx
        simp only [hb, Bool.false_eq_true, if_false, List.modifyHead, List.mem_cons] at hl
        rcases hl with rfl | hl
        · intro hmem
          rcases List.mem_cons.1 hmem with h1 | h1
          · exact hx h1.symm
          · exact ih r (by simp) h1
        · exact ih l (by simp [hl])

/-- The number of parts is one more than the number of separators. -/
theorem length_splitOn {α : Type} [DecidableEq α] (x : α) (xs : List α) :
    (xs.splitOn x).length = xs.count x + 1 := by
  unfold List.splitOn
  induction xs with
  | nil => simp
  | cons hd tl ih =>
    rw [List.splitOnP_cons]
    cases hrest : List.splitOnP (fun y => y == x) tl with
    | nil => exact absurd hrest (List.splitOnP_ne_nil _ _)
    | cons r rs =>
      rw [hrest] at ih
      by_cases hx : hd = x
      · subst hx
        simp only [beq_self_eq_true, if_true, List.length_cons, List.count_cons_self]
        simpa using ih
      · have hb : (hd == x) = false := by simpa using hx
        simp only [hb, Bool.false_eq_true, if_false, List.modifyHead, List.length_cons]
        rw [List.count_cons_of_ne (fun h => hx h.symm)]
        simpa using ih

/-- The encoder succeeds exactly on components free of the separator. -/
theorem encode_eq_ok (sep : Char) (components : List String)
    (h : ∀ c ∈ components, sep ∉ c.data) :
    encode sep components =
      Except.ok (String.mk ([sep].intercalate (components.map String.data))) := by
  unfold encode
  rw [if_neg]
  simp only [List.any_eq_true, not_exists, not_and]
  intro c hc hcon
  exact h c hc (by simpa using hcon)

/-- The parser of the conditional forwarder is the decoder of arity 2. -/
theorem parse_eq_ok_iff (s a b : String) :
    ParseDSConditionalForwarderID s = Except.ok (a, b) ↔
      decode separator 2 s = Except.ok [a, b] := by
  unfold ParseDSConditionalForwarderID
  split <;> simp_all

/-- C1: for every pair of strings `a`, `b` that do not contain the separator,
encoding `[a, b]` succeeds and decoding the identifier returns `[a, b]` in
that order; with the conditional forwarder's separator,
`ParseDSConditionalForwarderID` returns `(a, b)`. -/
theorem decode_encode_pair (sep : Char) (a b : String)
    (ha : sep ∉ a.data) (hb : sep ∉ b.data) :
    ∃ s, encode sep [a, b] = Except.ok s ∧ decode sep 2 s = Except.ok [a, b] ∧
      (sep = separator → ParseDSConditionalForwarderID s = Except.ok (a, b)) := by
  have hfree : ∀ l ∈ [a.data, b.data], sep ∉ l := by
    intro l hl
    simp only [List.mem_cons, List.mem_singleton, List.not_mem_nil, or_false] at hl
    rcases hl with rfl | rfl
    · exact ha
    · exact hb
  have hsplit := List.splitOn_intercalate [a.data, b.data] sep hfree (by simp)
  have hdec : decode sep 2 (String.mk ([sep].intercalate [a.data, b.data])) =
      Except.ok [a, b] := by
    unfold decode
    simp only [hsplit, List.map_cons, List.map_nil, List.length_cons, List.length_nil]
    rfl
  refine ⟨String.mk ([sep].intercalate [a.data, b.data]), ?_, hdec, ?_⟩
  · rw [encode_eq_ok sep [a, b]]
    · rfl
    · intro c hc
      simp only [List.mem_cons, List.mem_singleton, List.not_mem_nil, or_false] at hc
      rcases hc with rfl | rfl
      · exact ha
      · exact hb
  · intro hsep
    subst hsep
    exact (parse_eq_ok_iff _ a b).2 hdec

/-- The round trip of C1 at the identifier of the acceptance test. -/
theorem decode_encode_pair_witness :
    (',' ∉ "d-12345".data ∧ ',' ∉ "test.example.com".data) ∧
    ∃ s, encode ',' ["d-12345", "test.example.com"] = Except.ok s ∧
      decode ',' 2 s = Except.ok ["d-12345", "test.example.com"] ∧
      (',' = separator →
        ParseDSConditionalForwarderID s = Except.ok ("d-12345", "test.example.com")) :=
  ⟨⟨by decide, by decide⟩,
    decode_encode_pair ',' "d-12345" "test.example.com" (by decide) (by decide)⟩

/-- C2: for every string `s` that decodes as a two-component identifier,
encoding the decoded components succeeds and yields `s` again. -/
theorem encode_decode_pair (sep : Char) (s : String) (parts : List String)
    (h : decode sep 2 s = Except.ok parts) : encode sep parts = Except.ok s := by
  unfold decode at h
  simp only at h
  split at h
  · have hparts : parts = (s.data.splitOn sep).map String.mk := (Except.ok.inj h).symm
    subst hparts
    rw [encode_eq_ok]
    · have hmap : List.map String.data (List.map String.mk (s.data.splitOn sep)) =
          s.data.splitOn sep := by
        rw [List.map_map]
        exact List.map_id _
      rw [hmap, List.intercalate_splitOn]
    · intro c hc
      rcases List.mem_map.1 hc with ⟨l, hl, rfl⟩
      exact not_mem_of_mem_splitOn sep s.data l hl
  · exact Except.noConfusion h

/-- The round trip of C2 at the identifier of the acceptance test. -/
theorem encode_decode_pair_witness :
    decode ',' 2 "d-12345,test.example.com" = Except.ok ["d-12345", "test.example.com"] ∧
    encode ',' ["d-12345", "test.example.com"] = Except.ok "d-12345,test.example.com" :=
  ⟨by decide,
    encode_decode_pair ',' "d-12345,test.example.com" ["d-12345", "test.example.com"]
      (by decide)⟩

/-- C3: a string whose number of parts after splitting on the separator is
not 2 is rejected by `ParseDSConditionalForwarderID` (and by the decoder of
arity 2) with `MalformedIdentifier`. -/
theorem parse_malformed_of_part_count (s : String)
    (h : (s.data.splitOn separator).length ≠ 2) :
    ParseDSConditionalForwarderID s = Except.error GoError.MalformedIdentifier ∧
      decode separator 2 s = Except.error GoError.MalformedIdentifier := by
  have hdec : decode separator 2 s = Except.error GoError.MalformedIdentifier := by
    unfold decode
    simp only [List.length_map]
    rw [if_neg h]
  refine ⟨?_, hdec⟩
  unfold ParseDSConditionalForwarderID
  rw [hdec]

/-- The rejection of C3 at the single part `"d-12345"`. -/
theorem parse_malformed_of_part_count_witness :
    ("d-12345".data.splitOn separator).length ≠ 2 ∧
    (ParseDSConditionalForwarderID "d-12345" = Except.error GoError.MalformedIdentifier ∧
      decode separator 2 "d-12345" = Except.error GoError.MalformedIdentifier) :=
  ⟨by decide, parse_malformed_of_part_count "d-12345" (by decide)⟩

/-- C4: when at least one component contains the separator, `encode` fails
with `MalformedComponent` and yields no identifier. -/
theorem encode_malformed_component (sep : Char) (components : List String)
    (h : ∃ c ∈ components, sep ∈ c.data) :
    encode sep components = Except.error GoError.MalformedComponent := by
  unfold encode
  rw [if_pos]
  rcases h with ⟨c, hc, hsep⟩
  simp only [List.any_eq_true]
  exact ⟨c, hc, by simpa using hsep⟩

/-- The failure of C4 at the components `["a,b", "c"]`. -/
theorem encode_malformed_component_witness :
    (∃ c ∈ ["a,b", "c"], ',' ∈ c.data) ∧
    encode ',' ["a,b", "c"] = Except.error GoError.MalformedComponent :=
  ⟨⟨"a,b", by decide, by decide⟩,
    encode_malformed_component ',' ["a,b", "c"] ⟨"a,b", by decide, by decide⟩⟩

/-- C5: the identifier of directory `"d-12345"` and remote domain
`"test.example.com"` is `"d-12345,test.example.com"`, and parsing that
string returns directory `"d-12345"` and domain `"test.example.com"`. -/
theorem conditionalForwarderID_scenario :
    conditionalForwarderID "d-12345" "test.example.com" =
        Except.ok "d-12345,test.example.com" ∧
      ParseDSConditionalForwarderID "d-12345,test.example.com" =
        Except.ok ("d-12345", "test.example.com") := by
  decide

/-! ## Properties of the conditional forwarder checks -/

/-- The destroy check visits the resources one after the other: when it
passes a prefix of the state, it goes on with the rest in the world the
prefix left. -/
theorem destroy_append {σ : Type} (parse : IDParser) (conn : DirectoryServiceConn σ)
    (pre rest : State) (w w1 : DSWorld σ)
    (h : testAccCheckConditionalForwarderDestroy parse conn pre w = (Outcome.nil, w1)) :
    testAccCheckConditionalForwarderDestroy parse conn (pre ++ rest) w =
      testAccCheckConditionalForwarderDestroy parse conn rest w1 := by
  induction pre generalizing w with
  | nil =>
    simp only [testAccCheckConditionalForwarderDestroy, Prod.mk.injEq, true_and] at h
    subst h
    rfl
  | cons p pre ih =>
    obtain ⟨key, rs⟩ := p
    simp only [List.cons_append, testAccCheckConditionalForwarderDestroy] at h ⊢
    split
    · rename_i hty
      rw [if_pos hty] at h
      exact ih w h
    · rename_i hty
      rw [if_neg hty] at h
      split
      · rename_i e he
        rw [he] at h
        simp at h
      · rename_i directoryId domainName hp
        rw [hp] at h
        simp only at h
        split
        · rename_i e w2 hc
          rw [hc] at h
          simp only at h
          split
          · rename_i hne
            rw [if_pos hne] at h
            exact ih w2 h
          · rename_i hne
            rw [if_neg hne] at h
            simp at h
        · rename_i res w2 hc
          rw [hc] at h
          simp only at h
          split
          · rename_i hlen
            rw [if_pos hlen] at h
            simp at h
          · rename_i hlen
            rw [if_neg hlen] at h
            exact ih w2 h

/-- C6: when parsing the resource ID fails with error `e`, both checks return
exactly `e` and send no request for that resource: the exists check leaves
the world as it found it, and the destroy check, having passed the resources
before this one, stops in the world they left. -/
theorem checks_return_parse_error {σ : Type} (parse : IDParser)
    (conn : DirectoryServiceConn σ) (id : String) (e : GoError)
    (hparse : parse id = Except.error e) :
    (∀ (name rsType : String) (dnsIps : Option (List String)) (s : State) (w : DSWorld σ),
        id ≠ "" → s.lookup name = some { rsType := rsType, PrimaryID := id } →
        testAccCheckConditionalForwarderExists parse conn name dnsIps s w =
          (Outcome.err e, w)) ∧
    (∀ (pre post : State) (key : String) (w w1 : DSWorld σ),
        testAccCheckConditionalForwarderDestroy parse conn pre w = (Outcome.nil, w1) →
        testAccCheckConditionalForwarderDestroy parse conn
            (pre ++ (key, { rsType := "aws_directory_service_conditional_forwarder",
                            PrimaryID := id }) :: post) w =
          (Outcome.err e, w1)) := by
  constructor
  · intro name rsType dnsIps s w hid hfound
    unfold testAccCheckConditionalForwarderExists
    rw [hfound]
    simp only [hid, if_false, hparse]
  · intro pre post key w w1 hpre
    rw [destroy_append parse conn pre _ w w1 hpre]
    simp only [testAccCheckConditionalForwarderDestroy, ne_eq, not_true_eq_false, if_false,
      hparse]

/-- C6 at the one-part identifier `"d-12345"`: the parser of the conditional
forwarder rejects it, and both checks return that error without a call. -/
theorem checks_return_parse_error_witness :
    ParseDSConditionalForwarderID "d-12345" = Except.error GoError.MalformedIdentifier ∧
    testAccCheckConditionalForwarderExists ParseDSConditionalForwarderID
        emptyDirectoryService "aws_directory_service_conditional_forwarder.fwd" none
        [("aws_directory_service_conditional_forwarder.fwd",
          { rsType := "aws_directory_service_conditional_forwarder", PrimaryID := "d-12345" })]
        { remote := (), calls := [] } =
      (Outcome.err GoError.MalformedIdentifier, { remote := (), calls := [] }) ∧
    testAccCheckConditionalForwarderDestroy ParseDSConditionalForwarderID
        emptyDirectoryService
        ([] ++ ("aws_directory_service_conditional_forwarder.fwd",
          { rsType := "aws_directory_service_conditional_forwarder",
            PrimaryID := "d-12345" }) :: [])
        { remote := (), calls := [] } =
      (Outcome.err GoError.MalformedIdentifier, { remote := (), calls := [] }) :=
  ⟨by decide,
    (checks_return_parse_error ParseDSConditionalForwarderID emptyDirectoryService "d-12345"
      GoError.MalformedIdentifier (by decide)).1 _ _ none _ _ (by decide) rfl,
    (checks_return_parse_error ParseDSConditionalForwarderID emptyDirectoryService "d-12345"
      GoError.MalformedIdentifier (by decide)).2 [] [] _ _ _ rfl⟩

/-! ## Properties of the network interface read -/

/-- A write with `d.Set` does not touch the resource ID. -/
theorem Set_id (verdict : SetVerdict) (d : ResourceData) (key : String) (value : Value) :
    (d.Set verdict key value).1.id = d.id := by
  unfold ResourceData.Set
  split <;> rfl

/-- The plain attribute writes do not touch the resource ID. -/
theorem setPlainAttributes_id {T : SdkTypes} (verdict : SetVerdict) (h : Helpers T)
    (eni : NetworkInterface T) (d : ResourceData) :
    (setPlainAttributes verdict h eni d).id = d.id := by
  simp only [setPlainAttributes, Set_id]

/-- After the writes for an interface, the resource ID is the interface's
`NetworkInterfaceId`, `""` when the field is nil. -/
theorem setNetworkInterface_id {T : SdkTypes} (verdict : SetVerdict) (h : Helpers T)
    (cfg : T.IgnoreConfig) (eni : NetworkInterface T) (d : ResourceData) :
    (setNetworkInterface verdict h cfg eni d).2.id = StringValue eni.NetworkInterfaceId := by
  have key : ∀ (r : ResourceData × Option GoError),
      (match r.2 with
        | some e => (Outcome.err (GoError.wrapf "error setting tags" e), r.1)
        | none => (Outcome.nil, r.1)).2 = r.1 := by
    intro r
    split <;> rfl
  unfold setNetworkInterface
  simp only [key, Set_id, setPlainAttributes_id]
  cases eni.Association <;> cases eni.Attachment <;> simp [Set_id, ResourceData.SetId]

/-- The writes for an interface end with `nil` or with the wrapped error of
the `tags` write. -/
theorem setNetworkInterface_result {T : SdkTypes} (verdict : SetVerdict) (h : Helpers T)
    (cfg : T.IgnoreConfig) (eni : NetworkInterface T) (d : ResourceData) :
    (setNetworkInterface verdict h cfg eni d).1 = Outcome.nil ∨
      ∃ e, (setNetworkInterface verdict h cfg eni d).1 =
        Outcome.err (GoError.wrapf "error setting tags" e) := by
  unfold setNetworkInterface
  simp only
  split
  · exact Or.inr ⟨_, rfl⟩
  · exact Or.inl rfl

/-- The read by cases of the answer to its request. -/
theorem read_of_answer {T : SdkTypes} {σ : Type} (verdict : SetVerdict) (h : Helpers T)
    (d : ResourceData) (client : AWSClient T σ) (w : EC2World T σ)
    (input : DescribeNetworkInterfacesInput T)
    (hin : dataSourceNetworkInterfaceInput h d = some input) :
    (∀ e, (client.EC2Conn w.remote input).1 = Except.error e →
      (dataSourceNetworkInterfaceRead verdict h d client w).1 = Outcome.err (GoError.sdk e) ∧
      (dataSourceNetworkInterfaceRead verdict h d client w).2.1 = d) ∧
    ((client.EC2Conn w.remote input).1 = Except.ok none →
      (dataSourceNetworkInterfaceRead verdict h d client w).1 =
        Outcome.err (GoError.errorf "no matching network interface found") ∧
      (dataSourceNetworkInterfaceRead verdict h d client w).2.1 = d) ∧
    (∀ out, (client.EC2Conn w.remote input).1 = Except.ok (some out) →
      out.NetworkInterfaces = [] →
      (dataSourceNetworkInterfaceRead verdict h d client w).1 =
        Outcome.err (GoError.errorf "no matching network interface found") ∧
      (dataSourceNetworkInterfaceRead verdict h d client w).2.1 = d) ∧
    (∀ out, (client.EC2Conn w.remote input).1 = Except.ok (some out) →
      2 ≤ out.NetworkInterfaces.length →
      (dataSourceNetworkInterfaceRead verdict h d client w).1 =
        Outcome.err (GoError.errorf
          "Your query returned more than one result. Please try a more specific search criteria") ∧
      (dataSourceNetworkInterfaceRead verdict h d client w).2.1 = d) ∧
    (∀ out eni, (client.EC2Conn w.remote input).1 = Except.ok (some out) →
      out.NetworkInterfaces = [eni] →
      (dataSourceNetworkInterfaceRead verdict h d client w).1 =
        (setNetworkInterface verdict h client.IgnoreTagsConfig eni d).1 ∧
      (dataSourceNetworkInterfaceRead verdict h d client w).2.1 =
        (setNetworkInterface verdict h client.IgnoreTagsConfig eni d).2) := by
  unfold dataSourceNetworkInterfaceRead
  rw [hin]
  simp only [World.call]
  refine ⟨?_, ?_, ?_, ?_, ?_⟩
  · intro e he
    rw [he]
    exact ⟨rfl, rfl⟩
  · intro he
    rw [he]
    exact ⟨rfl, rfl⟩
  · intro out he hnil
    rw [he]
    simp [hnil]
  · intro out he hlen
    rw [he]
    have h0 : ¬ out.NetworkInterfaces.length = 0 := by omega
    have h1 : out.NetworkInterfaces.length > 1 := by omega
    simp [h0, h1]
  · intro out eni he hone
    rw [he]
    simp [hone]

/-- When a type assertion on the configured value fails, the read panics
before any request. -/
theorem read_of_no_input {T : SdkTypes} {σ : Type} (verdict : SetVerdict) (h : Helpers T)
    (d : ResourceData) (client : AWSClient T σ) (w : EC2World T σ)
    (hin : dataSourceNetworkInterfaceInput h d = none) :
    dataSourceNetworkInterfaceRead verdict h d client w = (Outcome.panic, d, w) := by
  unfold dataSourceNetworkInterfaceRead
  rw [hin]

/-- A list is empty, a singleton, or has at least two elements. -/
theorem list_trichotomy {α : Type} (xs : List α) :
    xs = [] ∨ (∃ x, xs = [x]) ∨ 2 ≤ xs.length := by
  match xs with
  | [] => exact Or.inl rfl
  | [x] => exact Or.inr (Or.inl ⟨x, rfl⟩)
  | _ :: _ :: _ => exact Or.inr (Or.inr (by simp))

/-- C7: the read returns the error "no matching network interface found" if
and only if its `DescribeNetworkInterfaces` request succeeds and the response
is nil or holds no network interface. -/
theorem read_no_match_iff {T : SdkTypes} {σ : Type} (verdict : SetVerdict) (h : Helpers T)
    (d : ResourceData) (client : AWSClient T σ) (w : EC2World T σ) :
    (dataSourceNetworkInterfaceRead verdict h d client w).1 =
        Outcome.err (GoError.errorf "no matching network interface found") ↔
      ∃ input, dataSourceNetworkInterfaceInput h d = some input ∧
        ((client.EC2Conn w.remote input).1 = Except.ok none ∨
          ∃ out, (client.EC2Conn w.remote input).1 = Except.ok (some out) ∧
            out.NetworkInterfaces = []) := by
  constructor
  · intro hres
    cases hin : dataSourceNetworkInterfaceInput h d with
    | none =>
      rw [read_of_no_input verdict h d client w hin] at hres
      exact Outcome.noConfusion hres
    | some input =>
      refine ⟨input, rfl, ?_⟩
      obtain ⟨herr, -, -, hmany, hone⟩ := read_of_answer verdict h d client w input hin
      cases hans : (client.EC2Conn w.remote input).1 with
      | error e =>
        rw [(herr e hans).1] at hres
        simp at hres
      | ok resp =>
        cases resp with
        | none => exact Or.inl rfl
        | some out =>
          refine Or.inr ⟨out, rfl, ?_⟩
          rcases list_trichotomy out.NetworkInterfaces with h0 | ⟨eni, h1⟩ | h2
          · exact h0
          · rw [(hone out eni hans h1).1] at hres
            rcases setNetworkInterface_result verdict h client.IgnoreTagsConfig eni d with
              hr | ⟨e, hr⟩
            · rw [hr] at hres
              exact Outcome.noConfusion hres
            · rw [hr] at hres
              simp at hres
          · rw [(hmany out hans h2).1] at hres
            simp only [Outcome.err.injEq, GoError.errorf.injEq] at hres
            exact absurd hres (by decide)
  · rintro ⟨input, hin, hans | ⟨out, hans, h0⟩⟩
    · exact ((read_of_answer verdict h d client w input hin).2.1 hans).1
    · exact ((read_of_answer verdict h d client w input hin).2.2.1 out hans h0).1

/-- C8: the read returns the error "Your query returned more than one
result. Please try a more specific search criteria" if and only if its
`DescribeNetworkInterfaces` request succeeds and the response holds two or
more network interfaces; it then leaves the resource data as it was, so none
of the matches is picked. -/
theorem read_many_matches_iff {T : SdkTypes} {σ : Type} (verdict : SetVerdict)
    (h : Helpers T) (d : ResourceData) (client : AWSClient T σ) (w : EC2World T σ) :
    ((dataSourceNetworkInterfaceRead verdict h d client w).1 =
        Outcome.err (GoError.errorf
          "Your query returned more than one result. Please try a more specific search criteria") ↔
      ∃ input out, dataSourceNetworkInterfaceInput h d = some input ∧
        (client.EC2Conn w.remote input).1 = Except.ok (some out) ∧
        2 ≤ out.NetworkInterfaces.length) ∧
    ((dataSourceNetworkInterfaceRead verdict h d client w).1 =
        Outcome.err (GoError.errorf
          "Your query returned more than one result. Please try a more specific search criteria") →
      (dataSourceNetworkInterfaceRead verdict h d client w).2.1 = d) := by
  have hforward : (dataSourceNetworkInterfaceRead verdict h d client w).1 =
        Outcome.err (GoError.errorf
          "Your query returned more than one result. Please try a more specific search criteria") →
      ∃ input out, dataSourceNetworkInterfaceInput h d = some input ∧
        (client.EC2Conn w.remote input).1 = Except.ok (some out) ∧
        2 ≤ out.NetworkInterfaces.length := by
    intro hres
    cases hin : dataSourceNetworkInterfaceInput h d with
    | none =>
      rw [read_of_no_input verdict h d client w hin] at hres
      exact Outcome.noConfusion hres
    | some input =>
      obtain ⟨herr, hnil, hzero, -, hone⟩ := read_of_answer verdict h d client w input hin
      cases hans : (client.EC2Conn w.remote input).1 with
      | error e =>
        rw [(herr e hans).1] at hres
        simp at hres
      | ok resp =>
        cases resp with
        | none =>
          rw [(hnil hans).1] at hres
          simp only [Outcome.err.injEq, GoError.errorf.injEq] at hres
          exact absurd hres (by decide)
        | some out =>
          refine ⟨input, out, rfl, hans, ?_⟩
          rcases list_trichotomy out.NetworkInterfaces with h0 | ⟨eni, h1⟩ | h2
          · rw [(hzero out hans h0).1] at hres
            simp only [Outcome.err.injEq, GoError.errorf.injEq] at hres
            exact absurd hres (by decide)
          · rw [(hone out eni hans h1).1] at hres
            rcases setNetworkInterface_result verdict h client.IgnoreTagsConfig eni d with
              hr | ⟨e, hr⟩
            · rw [hr] at hres
              exact Outcome.noConfusion hres
            · rw [hr] at hres
              simp at hres
          · exact h2
  refine ⟨⟨hforward, ?_⟩, ?_⟩
  · rintro ⟨input, out, hin, hans, h2⟩
    exact ((read_of_answer verdict h d client w input hin).2.2.2.1 out hans h2).1
  · intro hres
    obtain ⟨input, out, hin, hans, h2⟩ := hforward hres
    exact ((read_of_answer verdict h d client w input hin).2.2.2.1 out hans h2).2

/-- C9: when the response to the read's request holds exactly one network
interface, the resource ID after the read is that interface's
`NetworkInterfaceId`, the empty string when the field is nil, whatever the
resource data held before. -/
theorem read_sets_id {T : SdkTypes} {σ : Type} (verdict : SetVerdict) (h : Helpers T)
    (d : ResourceData) (client : AWSClient T σ) (w : EC2World T σ)
    (input : DescribeNetworkInterfacesInput T) (out : DescribeNetworkInterfacesOutput T)
    (eni : NetworkInterface T)
    (hin : dataSourceNetworkInterfaceInput h d = some input)
    (hans : (client.EC2Conn w.remote input).1 = Except.ok (some out))
    (hone : out.NetworkInterfaces = [eni]) :
    (dataSourceNetworkInterfaceRead verdict h d client w).2.1.id =
      StringValue eni.NetworkInterfaceId := by
  rw [((read_of_answer verdict h d client w input hin).2.2.2.2 out eni hans hone).2]
  exact setNetworkInterface_id verdict h client.IgnoreTagsConfig eni d

/-- C10: when the read fails because its request returned an error, or
because the response is nil, empty, or holds more than one interface, the
resource data after the read is the resource data before it, and an error of
the request is the error returned. -/
theorem read_failure_keeps_data {T : SdkTypes} {σ : Type} (verdict : SetVerdict)
    (h : Helpers T) (d : ResourceData) (client : AWSClient T σ) (w : EC2World T σ)
    (input : DescribeNetworkInterfacesInput T)
    (hin : dataSourceNetworkInterfaceInput h d = some input)
    (hfail : (∃ e, (client.EC2Conn w.remote input).1 = Except.error e) ∨
      (client.EC2Conn w.remote input).1 = Except.ok none ∨
      ∃ out, (client.EC2Conn w.remote input).1 = Except.ok (some out) ∧
        out.NetworkInterfaces.length ≠ 1) :
    (dataSourceNetworkInterfaceRead verdict h d client w).2.1 = d ∧
      (∃ e, (dataSourceNetworkInterfaceRead verdict h d client w).1 = Outcome.err e) ∧
      ∀ e, (client.EC2Conn w.remote input).1 = Except.error e →
        (dataSourceNetworkInterfaceRead verdict h d client w).1 =
          Outcome.err (GoError.sdk e) := by
  obtain ⟨herr, hnil, hzero, hmany, -⟩ := read_of_answer verdict h d client w input hin
  refine ⟨?_, ?_, fun e he => (herr e he).1⟩
  · rcases hfail with ⟨e, he⟩ | he | ⟨out, he, hlen⟩
    · exact (herr e he).2
    · exact (hnil he).2
    · rcases list_trichotomy out.NetworkInterfaces with h0 | ⟨eni, h1⟩ | h2
      · exact (hzero out he h0).2
      · rw [h1] at hlen
        exact absurd rfl hlen
      · exact (hmany out he h2).2
  · rcases hfail with ⟨e, he⟩ | he | ⟨out, he, hlen⟩
    · exact ⟨_, (herr e he).1⟩
    · exact ⟨_, (hnil he).1⟩
    · rcases list_trichotomy out.NetworkInterfaces with h0 | ⟨eni, h1⟩ | h2
      · exact ⟨_, (hzero out he h0).1⟩
      · rw [h1] at hlen
        exact absurd rfl hlen
      · exact ⟨_, (hmany out he h2).1⟩

/-- C7 on a service that answers with an empty response: the read returns
"no matching network interface found". -/
theorem read_no_match_iff_witness :
    (dataSourceNetworkInterfaceRead acceptAll plainHelpers (dataWithId "eni-1")
        (fixedEC2 (Except.ok (some { NetworkInterfaces := [] }))) freshWorld).1 =
      Outcome.err (GoError.errorf "no matching network interface found") :=
  (read_no_match_iff acceptAll plainHelpers (dataWithId "eni-1")
    (fixedEC2 (Except.ok (some { NetworkInterfaces := [] }))) freshWorld).2
    ⟨requestById "eni-1", rfl, Or.inr ⟨{ NetworkInterfaces := [] }, rfl, rfl⟩⟩

/-- C8 on a service that answers with two interfaces: the read returns the
"more than one result" error and the resource data is as before. -/
theorem read_many_matches_iff_witness :
    (dataSourceNetworkInterfaceRead acceptAll plainHelpers (dataWithId "eni-1")
        (fixedEC2 (Except.ok (some { NetworkInterfaces :=
          [sampleInterface (some "eni-1"), sampleInterface (some "eni-2")] }))) freshWorld).1 =
      Outcome.err (GoError.errorf
        "Your query returned more than one result. Please try a more specific search criteria") :=
  (read_many_matches_iff acceptAll plainHelpers (dataWithId "eni-1")
    (fixedEC2 (Except.ok (some { NetworkInterfaces :=
      [sampleInterface (some "eni-1"), sampleInterface (some "eni-2")] }))) freshWorld).1.2
    ⟨requestById "eni-1", _, rfl, rfl, by decide⟩

/-- C9 on a service that answers a request for `eni-1` with the single
interface `eni-2`: the resource ID after the read is `eni-2`. -/
theorem read_sets_id_witness :
    (dataSourceNetworkInterfaceInput plainHelpers (dataWithId "eni-1") =
        some (requestById "eni-1") ∧
      ((fixedEC2 (Except.ok (some { NetworkInterfaces := [sampleInterface (some "eni-2")] }))
        ).EC2Conn () (requestById "eni-1")).1 =
        Except.ok (some { NetworkInterfaces := [sampleInterface (some "eni-2")] })) ∧
    (dataSourceNetworkInterfaceRead acceptAll plainHelpers (dataWithId "eni-1")
        (fixedEC2 (Except.ok (some { NetworkInterfaces := [sampleInterface (some "eni-2")] })))
        freshWorld).2.1.id = "eni-2" :=
  ⟨⟨rfl, rfl⟩,
    read_sets_id acceptAll plainHelpers (dataWithId "eni-1")
      (fixedEC2 (Except.ok (some { NetworkInterfaces := [sampleInterface (some "eni-2")] })))
      freshWorld (requestById "eni-1") { NetworkInterfaces := [sampleInterface (some "eni-2")] }
      (sampleInterface (some "eni-2")) rfl rfl rfl⟩

/-- C10 on a service that rejects the request: the resource data is as
before and the service's error is the error returned. -/
theorem read_failure_keeps_data_witness :
    (dataSourceNetworkInterfaceInput plainHelpers (dataWithId "eni-1") =
        some (requestById "eni-1") ∧
      ((fixedEC2 (Except.error { code := "RequestLimitExceeded", message := "slow down" })
        ).EC2Conn () (requestById "eni-1")).1 =
        Except.error { code := "RequestLimitExceeded", message := "slow down" }) ∧
    (dataSourceNetworkInterfaceRead acceptAll plainHelpers (dataWithId "eni-1")
        (fixedEC2 (Except.error { code := "RequestLimitExceeded", message := "slow down" }))
        freshWorld).2.1 = dataWithId "eni-1" ∧
    (dataSourceNetworkInterfaceRead acceptAll plainHelpers (dataWithId "eni-1")
        (fixedEC2 (Except.error { code := "RequestLimitExceeded", message := "slow down" }))
        freshWorld).1 =
      Outcome.err (GoError.sdk { code := "RequestLimitExceeded", message := "slow down" }) :=
  ⟨⟨rfl, rfl⟩,
    (read_failure_keeps_data acceptAll plainHelpers (dataWithId "eni-1")
      (fixedEC2 (Except.error { code := "RequestLimitExceeded", message := "slow down" }))
      freshWorld (requestById "eni-1") rfl (Or.inl ⟨_, rfl⟩)).1,
    (read_failure_keeps_data acceptAll plainHelpers (dataWithId "eni-1")
      (fixedEC2 (Except.error { code := "RequestLimitExceeded", message := "slow down" }))
      freshWorld (requestById "eni-1") rfl (Or.inl ⟨_, rfl⟩)).2.2 _ rfl⟩

/-! ## The comparison of the DNS addresses -/

/-- The comparison loop from index `k` on, when the addresses left are as
many as the expected ones from `k` on: it returns `nil` exactly when the two
agree. -/
theorem compareDnsIps_eq_nil_iff (dnsIps : List String) (k : Nat) (addrs : List String)
    (hlen : k + addrs.length = dnsIps.length) :
    compareDnsIps dnsIps k addrs = Outcome.nil ↔ dnsIps.drop k = addrs := by
  induction addrs generalizing k with
  | nil =>
    simp only [compareDnsIps, true_iff]
    apply List.drop_eq_nil_of_le
    simp only [List.length_nil, Nat.add_zero] at hlen
    omega
  | cons v rest ih =>
    simp only [List.length_cons] at hlen
    have hk : k < dnsIps.length := by omega
    have hget : dnsIps.get? k = some (dnsIps.get ⟨k, hk⟩) := List.get?_eq_get hk
    have hdrop : dnsIps.drop k = dnsIps.get ⟨k, hk⟩ :: dnsIps.drop (k + 1) :=
      List.drop_eq_getElem_cons hk
    rw [hdrop]
    simp only [compareDnsIps, hget]
    by_cases hv : v = dnsIps.get ⟨k, hk⟩
    · rw [if_neg (by simpa using hv), ih (k + 1) (by omega), ← hv]
      constructor
      · intro h
        rw [h]
      · intro h
        exact (List.cons.inj h).2
    · rw [if_pos (by simpa using hv)]
      simp only [List.cons.injEq, false_iff, not_and, reduceCtorEq]
      intro h
      exact absurd h.symm hv

/-- C18: with the resource in state under a parseable ID and at least one
forwarder returned, the exists check returns `nil` if and only if `dnsIps`
is the nil slice or is, element by element and in the same order, the
`DnsIpAddrs` of the first forwarder returned. -/
theorem exists_nil_iff {σ : Type} (parse : IDParser) (conn : DirectoryServiceConn σ)
    (name : String) (dnsIps : Option (List String)) (s : State) (w : DSWorld σ)
    (rs : ResourceState) (directoryId domainName : String)
    (res : DescribeConditionalForwardersOutput) (cfd : ConditionalForwarder)
    (rest : List ConditionalForwarder)
    (hfound : s.lookup name = some rs) (hid : rs.PrimaryID ≠ "")
    (hparse : parse rs.PrimaryID = Except.ok (directoryId, domainName))
    (hans : (conn w.remote
      { DirectoryId := directoryId, RemoteDomainNames := [domainName] }).1 = Except.ok res)
    (hfirst : res.ConditionalForwarders = cfd :: rest) :
    (testAccCheckConditionalForwarderExists parse conn name dnsIps s w).1 = Outcome.nil ↔
      dnsIps = none ∨ dnsIps = some cfd.DnsIpAddrs := by
  unfold testAccCheckConditionalForwarderExists
  rw [hfound]
  simp only [hid, if_false, hparse, World.call, hans, hfirst]
  cases dnsIps with
  | none => simp
  | some ips =>
    simp only [reduceCtorEq, Option.some.injEq, false_or]
    by_cases hlen : ips.length = cfd.DnsIpAddrs.length
    · rw [if_neg (by simpa using hlen)]
      simp only
      rw [compareDnsIps_eq_nil_iff ips 0 cfd.DnsIpAddrs (by omega)]
      simp
    · rw [if_pos (by simpa using hlen)]
      simp only [reduceCtorEq, false_iff]
      intro h
      exact hlen (by rw [h])

/-- C18 on the addresses of the acceptance test: the same addresses in the
same order pass, and `nil` expected addresses pass. -/
theorem exists_nil_iff_witness :
    (testAccCheckConditionalForwarderExists ParseDSConditionalForwarderID
        (oneForwarder ["8.8.8.8", "1.1.1.1"])
        "aws_directory_service_conditional_forwarder.fwd" (some ["8.8.8.8", "1.1.1.1"])
        (forwarderState "d-12345,test.example.com") freshWorld).1 = Outcome.nil :=
  (exists_nil_iff ParseDSConditionalForwarderID (oneForwarder ["8.8.8.8", "1.1.1.1"])
    "aws_directory_service_conditional_forwarder.fwd" (some ["8.8.8.8", "1.1.1.1"])
    (forwarderState "d-12345,test.example.com") freshWorld
    { rsType := "aws_directory_service_conditional_forwarder",
      PrimaryID := "d-12345,test.example.com" }
    "d-12345" "test.example.com"
    { ConditionalForwarders := [{ DnsIpAddrs := ["8.8.8.8", "1.1.1.1"] }] }
    { DnsIpAddrs := ["8.8.8.8", "1.1.1.1"] } []
    rfl (by decide) (by decide) rfl rfl).2 (Or.inr rfl)

/-- The exists check rejects a permutation of the addresses of the first
forwarder. -/
theorem exists_rejects_permutation :
    (testAccCheckConditionalForwarderExists ParseDSConditionalForwarderID
        (oneForwarder ["8.8.8.8", "1.1.1.1"])
        "aws_directory_service_conditional_forwarder.fwd" (some ["1.1.1.1", "8.8.8.8"])
        (forwarderState "d-12345,test.example.com") freshWorld).1 =
      Outcome.err (GoError.errorf "DnsIp mismatch, '8.8.8.8' != '1.1.1.1' at index '0'") := by
  decide

/-- C19: the exists check returns "Not found: <name>" when the named
resource is not in the state, and "No ID is set" when it is there with an
empty ID; in both cases the world is as before (no request is sent), whatever
the parser. -/
theorem exists_not_found_or_no_id {σ : Type} (parse : IDParser)
    (conn : DirectoryServiceConn σ) (name : String) (dnsIps : Option (List String))
    (s : State) (w : DSWorld σ) :
    (s.lookup name = none →
      testAccCheckConditionalForwarderExists parse conn name dnsIps s w =
        (Outcome.err (GoError.errorf ("Not found: " ++ name)), w)) ∧
    (∀ rs, s.lookup name = some rs → rs.PrimaryID = "" →
      testAccCheckConditionalForwarderExists parse conn name dnsIps s w =
        (Outcome.err (GoError.errorf "No ID is set"), w)) := by
  constructor
  · intro hnone
    unfold testAccCheckConditionalForwarderExists
    rw [hnone]
  · intro rs hfound hid
    unfold testAccCheckConditionalForwarderExists
    rw [hfound]
    simp only [hid, if_true]

/-- C19 on an empty state and on a forwarder without ID. -/
theorem exists_not_found_or_no_id_witness :
    testAccCheckConditionalForwarderExists ParseDSConditionalForwarderID
        (oneForwarder []) "aws_directory_service_conditional_forwarder.fwd" none [] freshWorld =
      (Outcome.err (GoError.errorf "Not found: aws_directory_service_conditional_forwarder.fwd"),
        freshWorld) ∧
    testAccCheckConditionalForwarderExists ParseDSConditionalForwarderID
        (oneForwarder []) "aws_directory_service_conditional_forwarder.fwd" none
        (forwarderState "") freshWorld =
      (Outcome.err (GoError.errorf "No ID is set"), freshWorld) :=
  ⟨(exists_not_found_or_no_id ParseDSConditionalForwarderID (oneForwarder [])
      "aws_directory_service_conditional_forwarder.fwd" none [] freshWorld).1 rfl,
    (exists_not_found_or_no_id ParseDSConditionalForwarderID (oneForwarder [])
      "aws_directory_service_conditional_forwarder.fwd" none (forwarderState "")
      freshWorld).2 _ rfl rfl⟩

/-- The destroy check only adds requests to those already sent. -/
theorem destroy_calls {σ : Type} (parse : IDParser) (conn : DirectoryServiceConn σ)
    (s : State) (w : DSWorld σ) :
    ∃ cs, (testAccCheckConditionalForwarderDestroy parse conn s w).2.calls = w.calls ++ cs := by
  induction s generalizing w with
  | nil => exact ⟨[], by simp [testAccCheckConditionalForwarderDestroy]⟩
  | cons p s ih =>
    obtain ⟨key, rs⟩ := p
    simp only [testAccCheckConditionalForwarderDestroy]
    split
    · exact ih w
    · split
      · exact ⟨[], by simp⟩
      · rename_i directoryId domainName hp
        have hcalls : (w.call conn ⟨directoryId, [domainName]⟩).2.calls =
            w.calls ++ [⟨directoryId, [domainName]⟩] :=
          rfl
        split
        · rename_i e w2 hc
          have hw2 : w2.calls = w.calls ++ [⟨directoryId, [domainName]⟩] := by
            rw [← hcalls, hc]
          split
          · obtain ⟨cs, hcs⟩ := ih w2
            exact ⟨⟨directoryId, [domainName]⟩ :: cs, by rw [hcs, hw2]; simp⟩
          · exact ⟨_, hw2⟩
        · rename_i res w2 hc
          have hw2 : w2.calls = w.calls ++ [⟨directoryId, [domainName]⟩] := by
            rw [← hcalls, hc]
          split
          · exact ⟨_, hw2⟩
          · obtain ⟨cs, hcs⟩ := ih w2
            exact ⟨⟨directoryId, [domainName]⟩ :: cs, by rw [hcs, hw2]; simp⟩

/-- C20: when the resource ID parses to `(directoryId, domainName)`, the
request that each check sends for the resource has `DirectoryId` equal to
`directoryId` and `RemoteDomainNames` equal to `[domainName]`: the exists
check records exactly this request, and the destroy check, having passed the
resources before this one, records it next. -/
theorem checks_request_of_parse {σ : Type} (parse : IDParser)
    (conn : DirectoryServiceConn σ) (id directoryId domainName : String)
    (hparse : parse id = Except.ok (directoryId, domainName)) :
    (∀ (name rsType : String) (dnsIps : Option (List String)) (s : State) (w : DSWorld σ),
        id ≠ "" → s.lookup name = some { rsType := rsType, PrimaryID := id } →
        (testAccCheckConditionalForwarderExists parse conn name dnsIps s w).2.calls =
          w.calls ++ [{ DirectoryId := directoryId, RemoteDomainNames := [domainName] }]) ∧
    (∀ (pre post : State) (key : String) (w w1 : DSWorld σ),
        testAccCheckConditionalForwarderDestroy parse conn pre w = (Outcome.nil, w1) →
        ∃ cs, (testAccCheckConditionalForwarderDestroy parse conn
            (pre ++ (key, { rsType := "aws_directory_service_conditional_forwarder",
                            PrimaryID := id }) :: post) w).2.calls =
          w1.calls ++
            { DirectoryId := directoryId, RemoteDomainNames := [domainName] } :: cs) := by
  constructor
  · intro name rsType dnsIps s w hid hfound
    unfold testAccCheckConditionalForwarderExists
    rw [hfound]
    simp only [hid, if_false, hparse, World.call]
    cases (conn w.remote ⟨directoryId, [domainName]⟩).1 with
    | error e => rfl
    | ok res =>
      simp only
      cases res.ConditionalForwarders with
      | nil => rfl
      | cons cfd rest =>
        simp only
        cases dnsIps with
        | none => rfl
        | some ips =>
          simp only
          split <;> rfl
  · intro pre post key w w1 hpre
    rw [destroy_append parse conn pre _ w w1 hpre]
    simp only [testAccCheckConditionalForwarderDestroy, ne_eq, not_true_eq_false, if_false,
      hparse, World.call]
    cases (conn w1.remote ⟨directoryId, [domainName]⟩).1 with
    | error e =>
      simp only
      split
      · obtain ⟨cs, hcs⟩ := destroy_calls parse conn post
          { remote := (conn w1.remote ⟨directoryId, [domainName]⟩).2,
            calls := w1.calls ++ [⟨directoryId, [domainName]⟩] }
        exact ⟨cs, by rw [hcs]; simp⟩
      · exact ⟨[], rfl⟩
    | ok res =>
      simp only
      split
      · exact ⟨[], rfl⟩
      · obtain ⟨cs, hcs⟩ := destroy_calls parse conn post
          { remote := (conn w1.remote ⟨directoryId, [domainName]⟩).2,
            calls := w1.calls ++ [⟨directoryId, [domainName]⟩] }
        exact ⟨cs, by rw [hcs]; simp⟩

/-- C20 at the identifier `"d-12345,test.example.com"`: the exists check
asks for directory `d-12345` and the domain `test.example.com`. -/
theorem checks_request_of_parse_witness :
    ParseDSConditionalForwarderID "d-12345,test.example.com" =
      Except.ok ("d-12345", "test.example.com") ∧
    (testAccCheckConditionalForwarderExists ParseDSConditionalForwarderID
        (oneForwarder ["8.8.8.8", "1.1.1.1"])
        "aws_directory_service_conditional_forwarder.fwd" none
        (forwarderState "d-12345,test.example.com") freshWorld).2.calls =
      [] ++ [{ DirectoryId := "d-12345", RemoteDomainNames := ["test.example.com"] }] :=
  ⟨by decide,
    (checks_request_of_parse ParseDSConditionalForwarderID
      (oneForwarder ["8.8.8.8", "1.1.1.1"]) "d-12345,test.example.com" "d-12345"
      "test.example.com" (by decide)).1 _ _ none _ freshWorld (by decide) rfl⟩

/-! ## The request and the attribute writes of the network interface read -/

/-- `d.GetOk` yields a value exactly when the attribute holds a value that is
not the zero value of its type. -/
theorem GetOk_eq_some_iff (d : ResourceData) (key : String) (v : Value) :
    d.GetOk key = some v ↔ d.attrs key = some v ∧ v.isZero = false := by
  unfold ResourceData.GetOk
  cases d.attrs key with
  | none => simp
  | some u =>
    simp only [Option.some.injEq]
    by_cases hz : u.isZero = true
    · rw [if_pos hz]
      constructor
      · intro h
        exact absurd h (by simp)
      · rintro ⟨rfl, h2⟩
        rw [hz] at h2
        exact absurd h2 (by simp)
    · rw [if_neg hz]
      constructor
      · intro h
        have hu : u = v := Option.some.inj h
        subst hu
        exact ⟨rfl, by simpa using hz⟩
      · rintro ⟨rfl, -⟩
        rfl

/-- The request, field by field, from what `d.GetOk` yields. -/
theorem input_fields {T : SdkTypes} (h : Helpers T) (d : ResourceData)
    (input : DescribeNetworkInterfacesInput T)
    (hin : dataSourceNetworkInterfaceInput h d = some input) :
    ((∃ v, d.GetOk "id" = some (Value.str v) ∧ input.NetworkInterfaceIds = some [v]) ∨
      (d.GetOk "id" = none ∧ input.NetworkInterfaceIds = none)) ∧
    ((∃ vs, d.GetOk "filter" = some (Value.set vs) ∧
        input.Filters = some (h.BuildFiltersDataSource vs)) ∨
      (d.GetOk "filter" = none ∧ input.Filters = none)) := by
  unfold dataSourceNetworkInterfaceInput at hin
  generalize d.GetOk "id" = gi at hin ⊢
  generalize d.GetOk "filter" = gf at hin ⊢
  rcases gi with _ | (v | p | xs | xs | kvs) <;>
    rcases gf with _ | (v2 | p2 | xs2 | xs2 | kvs2) <;>
    simp only [reduceCtorEq, Option.some.injEq] at hin <;>
    first
      | exact absurd hin (by simp)
      | (subst hin; simp)

/-- The read sends the request it built, and no other. -/
theorem read_calls {T : SdkTypes} {σ : Type} (verdict : SetVerdict) (h : Helpers T)
    (d : ResourceData) (client : AWSClient T σ) (w : EC2World T σ)
    (input : DescribeNetworkInterfacesInput T)
    (hin : dataSourceNetworkInterfaceInput h d = some input) :
    (dataSourceNetworkInterfaceRead verdict h d client w).2.2.calls = w.calls ++ [input] := by
  unfold dataSourceNetworkInterfaceRead
  rw [hin]
  simp only [World.call]
  cases (client.EC2Conn w.remote input).1 with
  | error e => rfl
  | ok resp =>
    cases resp with
    | none => rfl
    | some out =>
      simp only
      split
      · rfl
      · split
        · rfl
        · split <;> rfl

/-- C11: the request the read builds and sends has `NetworkInterfaceIds`
equal to `[id]` exactly when the configured `id` is a non-empty string, and
`Filters` built from the filter set exactly when a non-empty filter set is
configured; when `d.GetOk` finds neither, the request has no ids and no
filters. -/
theorem read_request {T : SdkTypes} {σ : Type} (verdict : SetVerdict) (h : Helpers T)
    (d : ResourceData) (client : AWSClient T σ) (w : EC2World T σ)
    (input : DescribeNetworkInterfacesInput T)
    (hin : dataSourceNetworkInterfaceInput h d = some input) :
    (dataSourceNetworkInterfaceRead verdict h d client w).2.2.calls = w.calls ++ [input] ∧
    (∀ ids, input.NetworkInterfaceIds = some ids ↔
      ∃ v, d.attrs "id" = some (Value.str v) ∧ v ≠ "" ∧ ids = [v]) ∧
    (∀ fs, input.Filters = some fs ↔
      ∃ vs, d.attrs "filter" = some (Value.set vs) ∧ vs ≠ [] ∧
        fs = h.BuildFiltersDataSource vs) ∧
    (d.GetOk "id" = none → d.GetOk "filter" = none →
      input.NetworkInterfaceIds = none ∧ input.Filters = none) := by
  obtain ⟨hids, hfilters⟩ := input_fields h d input hin
  refine ⟨read_calls verdict h d client w input hin, ?_, ?_, ?_⟩
  · intro ids
    rcases hids with ⟨v, hget, hfield⟩ | ⟨hget, hfield⟩
    · obtain ⟨hattr, hzero⟩ := (GetOk_eq_some_iff d "id" (Value.str v)).1 hget
      have hv : v ≠ "" := by simpa [Value.isZero] using hzero
      rw [hfield, hattr]
      constructor
      · intro hsome
        exact ⟨v, rfl, hv, (Option.some.inj hsome).symm⟩
      · rintro ⟨v2, hv2, -, rfl⟩
        have : v = v2 := Value.str.inj (Option.some.inj hv2)
        rw [this]
    · rw [hfield]
      constructor
      · intro hsome
        exact absurd hsome (by simp)
      · rintro ⟨v, hattr, hv, -⟩
        have hsome : d.GetOk "id" = some (Value.str v) :=
          (GetOk_eq_some_iff d "id" (Value.str v)).2 ⟨hattr, by simpa [Value.isZero] using hv⟩
        rw [hget] at hsome
        exact absurd hsome (by simp)
  · intro fs
    rcases hfilters with ⟨vs, hget, hfield⟩ | ⟨hget, hfield⟩
    · obtain ⟨hattr, hzero⟩ := (GetOk_eq_some_iff d "filter" (Value.set vs)).1 hget
      have hvs : vs ≠ [] := by simpa [Value.isZero] using hzero
      rw [hfield, hattr]
      constructor
      · intro hsome
        exact ⟨vs, rfl, hvs, (Option.some.inj hsome).symm⟩
      · rintro ⟨vs2, hvs2, -, rfl⟩
        have : vs = vs2 := Value.set.inj (Option.some.inj hvs2)
        rw [this]
    · rw [hfield]
      constructor
      · intro hsome
        exact absurd hsome (by simp)
      · rintro ⟨vs, hattr, hvs, -⟩
        have hsome : d.GetOk "filter" = some (Value.set vs) :=
          (GetOk_eq_some_iff d "filter" (Value.set vs)).2
            ⟨hattr, by simpa [Value.isZero] using hvs⟩
        rw [hget] at hsome
        exact absurd hsome (by simp)
  · intro hnoid hnofilter
    constructor
    · rcases hids with ⟨v, hget, -⟩ | ⟨-, hfield⟩
      · rw [hnoid] at hget
        exact absurd hget (by simp)
      · exact hfield
    · rcases hfilters with ⟨vs, hget, -⟩ | ⟨-, hfield⟩
      · rw [hnofilter] at hget
        exact absurd hget (by simp)
      · exact hfield

/-- C11 on resource data with the id `eni-1` and one filter: the request
carries `["eni-1"]` and the filter built from the set. -/
theorem read_request_witness :
    dataSourceNetworkInterfaceInput plainHelpers
        (dataWithIdAndFilter "eni-1" [Value.str "vpc-id"]) =
      some { NetworkInterfaceIds := some ["eni-1"], Filters := some ["vpc-id"] } ∧
    (dataSourceNetworkInterfaceRead acceptAll plainHelpers
        (dataWithIdAndFilter "eni-1" [Value.str "vpc-id"])
        (fixedEC2 (Except.ok none)) freshWorld).2.2.calls =
      [] ++ [{ NetworkInterfaceIds := some ["eni-1"], Filters := some ["vpc-id"] }] :=
  ⟨rfl,
    (read_request acceptAll plainHelpers (dataWithIdAndFilter "eni-1" [Value.str "vpc-id"])
      (fixedEC2 (Except.ok none)) freshWorld
      { NetworkInterfaceIds := some ["eni-1"], Filters := some ["vpc-id"] } rfl).1⟩

/-- When the configured `id` is a string or absent and the configured
`filter` is a set or absent, as the schema types them, the read builds a
request. -/
theorem input_isSome_of_typed {T : SdkTypes} (h : Helpers T) (d : ResourceData)
    (hid : d.attrs "id" = none ∨ ∃ v, d.attrs "id" = some (Value.str v))
    (hfilter : d.attrs "filter" = none ∨ ∃ vs, d.attrs "filter" = some (Value.set vs)) :
    ∃ input, dataSourceNetworkInterfaceInput h d = some input := by
  have hgi : d.GetOk "id" = none ∨ ∃ v, d.GetOk "id" = some (Value.str v) := by
    unfold ResourceData.GetOk
    rcases hid with hid | ⟨v, hid⟩
    · rw [hid]
      exact Or.inl rfl
    · rw [hid]
      simp only
      by_cases hz : (Value.str v).isZero = true
      · rw [if_pos hz]
        exact Or.inl rfl
      · rw [if_neg hz]
        exact Or.inr ⟨v, rfl⟩
  have hgf : d.GetOk "filter" = none ∨ ∃ vs, d.GetOk "filter" = some (Value.set vs) := by
    unfold ResourceData.GetOk
    rcases hfilter with hf | ⟨vs, hf⟩
    · rw [hf]
      exact Or.inl rfl
    · rw [hf]
      simp only
      by_cases hz : (Value.set vs).isZero = true
      · rw [if_pos hz]
        exact Or.inl rfl
      · rw [if_neg hz]
        exact Or.inr ⟨vs, rfl⟩
  unfold dataSourceNetworkInterfaceInput
  rcases hgi with hgi | ⟨v, hgi⟩ <;> rcases hgf with hgf | ⟨vs, hgf⟩ <;>
    rw [hgi, hgf] <;> exact ⟨_, rfl⟩

/-- A write with `d.Set` leaves every other attribute as it was. -/
theorem Set_attrs_of_ne (verdict : SetVerdict) (d : ResourceData) (key k : String)
    (value : Value) (hk : k ≠ key) : (d.Set verdict key value).1.attrs k = d.attrs k := by
  unfold ResourceData.Set
  split
  · rfl
  · simp only [if_neg hk]

/-- A write with `d.Set` stores the value when the framework accepts it and
keeps the old one when it does not. -/
theorem Set_attrs_self (verdict : SetVerdict) (d : ResourceData) (key : String)
    (value : Value) :
    (d.Set verdict key value).1.attrs key =
      if (verdict key value).isNone then some value else d.attrs key := by
  unfold ResourceData.Set
  cases verdict key value with
  | none => simp
  | some msg => simp

/-- The error of `d.Set` is the framework's verdict. -/
theorem Set_error (verdict : SetVerdict) (d : ResourceData) (key : String) (value : Value) :
    (d.Set verdict key value).2 = (verdict key value).map GoError.host := by
  unfold ResourceData.Set
  cases verdict key value with
  | none => rfl
  | some msg => rfl

/-- The plain attribute writes leave `association`, `attachment` and `tags`
as they were. -/
theorem setPlainAttributes_attrs {T : SdkTypes} (verdict : SetVerdict) (h : Helpers T)
    (eni : NetworkInterface T) (d : ResourceData) (k : String)
    (hk : k ∉ ["availability_zone", "description", "security_groups", "interface_type",
      "ipv6_addresses", "mac_address", "owner_id", "private_dns_name", "private_ip",
      "private_ips", "requester_id", "subnet_id", "outpost_arn", "vpc_id"]) :
    (setPlainAttributes verdict h eni d).attrs k = d.attrs k := by
  simp only [List.mem_cons, List.mem_singleton, List.not_mem_nil, or_false, not_or] at hk
  obtain ⟨h1, h2, h3, h4, h5, h6, h7, h8, h9, h10, h11, h12, h13, h14⟩ := hk
  unfold setPlainAttributes
  simp only
  rw [Set_attrs_of_ne _ _ _ _ _ h14, Set_attrs_of_ne _ _ _ _ _ h13,
    Set_attrs_of_ne _ _ _ _ _ h12, Set_attrs_of_ne _ _ _ _ _ h11,
    Set_attrs_of_ne _ _ _ _ _ h10, Set_attrs_of_ne _ _ _ _ _ h9,
    Set_attrs_of_ne _ _ _ _ _ h8, Set_attrs_of_ne _ _ _ _ _ h7,
    Set_attrs_of_ne _ _ _ _ _ h6, Set_attrs_of_ne _ _ _ _ _ h5,
    Set_attrs_of_ne _ _ _ _ _ h4, Set_attrs_of_ne _ _ _ _ _ h3,
    Set_attrs_of_ne _ _ _ _ _ h2, Set_attrs_of_ne _ _ _ _ _ h1]

/-- The resource data after the writes for an interface, step by step. -/
theorem setNetworkInterface_data {T : SdkTypes} (verdict : SetVerdict) (h : Helpers T)
    (cfg : T.IgnoreConfig) (eni : NetworkInterface T) (d : ResourceData) :
    (setNetworkInterface verdict h cfg eni d).2 =
      ((setPlainAttributes verdict h eni
        (match eni.Attachment with
          | some a =>
            ((match eni.Association with
              | some b => ((d.SetId (StringValue eni.NetworkInterfaceId)).Set verdict
                  "association" (h.flattenNetworkInterfaceAssociation b)).1
              | none => d.SetId (StringValue eni.NetworkInterfaceId)).Set verdict
                "attachment" (Value.list [h.FlattenAttachment a])).1
          | none =>
            match eni.Association with
            | some b => ((d.SetId (StringValue eni.NetworkInterfaceId)).Set verdict
                "association" (h.flattenNetworkInterfaceAssociation b)).1
            | none => d.SetId (StringValue eni.NetworkInterfaceId))).Set verdict "tags"
        (h.Map (h.IgnoreConfig (h.IgnoreAWS (h.KeyValueTags eni.TagSet)) cfg))).1 := by
  unfold setNetworkInterface
  simp only
  split <;> rfl

/-- The outcome of the writes for an interface is decided by the verdict on
the `tags` write alone. -/
theorem setNetworkInterface_outcome {T : SdkTypes} (verdict : SetVerdict) (h : Helpers T)
    (cfg : T.IgnoreConfig) (eni : NetworkInterface T) (d : ResourceData) :
    (setNetworkInterface verdict h cfg eni d).1 =
      match verdict "tags"
          (h.Map (h.IgnoreConfig (h.IgnoreAWS (h.KeyValueTags eni.TagSet)) cfg)) with
      | some msg => Outcome.err (GoError.wrapf "error setting tags" (GoError.host msg))
      | none => Outcome.nil := by
  unfold setNetworkInterface
  simp only [Set_error]
  cases verdict "tags" (h.Map (h.IgnoreConfig (h.IgnoreAWS (h.KeyValueTags eni.TagSet)) cfg)) with
  | none => rfl
  | some msg => rfl

/-- After the writes for an interface, `association` and `attachment` are
what the first two steps left. -/
theorem setNetworkInterface_attrs_head {T : SdkTypes} (verdict : SetVerdict) (h : Helpers T)
    (cfg : T.IgnoreConfig) (eni : NetworkInterface T) (d : ResourceData) (k : String)
    (hk : k = "association" ∨ k = "attachment") :
    (setNetworkInterface verdict h cfg eni d).2.attrs k =
      (match eni.Attachment with
        | some a =>
          ((match eni.Association with
            | some b => ((d.SetId (StringValue eni.NetworkInterfaceId)).Set verdict
                "association" (h.flattenNetworkInterfaceAssociation b)).1
            | none => d.SetId (StringValue eni.NetworkInterfaceId)).Set verdict
              "attachment" (Value.list [h.FlattenAttachment a])).1
        | none =>
          match eni.Association with
          | some b => ((d.SetId (StringValue eni.NetworkInterfaceId)).Set verdict
              "association" (h.flattenNetworkInterfaceAssociation b)).1
          | none => d.SetId (StringValue eni.NetworkInterfaceId)).attrs k := by
  rw [setNetworkInterface_data]
  rcases hk with rfl | rfl
  · rw [Set_attrs_of_ne _ _ _ _ _ (by decide), setPlainAttributes_attrs _ _ _ _ _ (by decide)]
  · rw [Set_attrs_of_ne _ _ _ _ _ (by decide), setPlainAttributes_attrs _ _ _ _ _ (by decide)]

/-- C13: when one interface matches, `association` is written only when the
interface has an association and `attachment` only when it has an
attachment; the value written for `attachment` is the list of exactly one
flattened attachment (kept when the framework accepts it); when the field is
nil the attribute has after the read the value it had before. -/
theorem read_association_attachment {T : SdkTypes} {σ : Type} (verdict : SetVerdict)
    (h : Helpers T) (d : ResourceData) (client : AWSClient T σ) (w : EC2World T σ)
    (input : DescribeNetworkInterfacesInput T) (out : DescribeNetworkInterfacesOutput T)
    (eni : NetworkInterface T)
    (hin : dataSourceNetworkInterfaceInput h d = some input)
    (hans : (client.EC2Conn w.remote input).1 = Except.ok (some out))
    (hone : out.NetworkInterfaces = [eni]) :
    (eni.Association = none →
      (dataSourceNetworkInterfaceRead verdict h d client w).2.1.attrs "association" =
        d.attrs "association") ∧
    (eni.Attachment = none →
      (dataSourceNetworkInterfaceRead verdict h d client w).2.1.attrs "attachment" =
        d.attrs "attachment") ∧
    (∀ a, eni.Association = some a →
      (dataSourceNetworkInterfaceRead verdict h d client w).2.1.attrs "association" =
        if (verdict "association" (h.flattenNetworkInterfaceAssociation a)).isNone then
          some (h.flattenNetworkInterfaceAssociation a)
        else d.attrs "association") ∧
    (∀ a, eni.Attachment = some a →
      (dataSourceNetworkInterfaceRead verdict h d client w).2.1.attrs "attachment" =
        if (verdict "attachment" (Value.list [h.FlattenAttachment a])).isNone then
          some (Value.list [h.FlattenAttachment a])
        else d.attrs "attachment") := by
  rw [((read_of_answer verdict h d client w input hin).2.2.2.2 out eni hans hone).2]
  rw [setNetworkInterface_attrs_head verdict h _ eni d "association" (Or.inl rfl),
    setNetworkInterface_attrs_head verdict h _ eni d "attachment" (Or.inr rfl)]
  refine ⟨?_, ?_, ?_, ?_⟩
  · intro hnone
    rw [hnone]
    cases eni.Attachment with
    | none => rfl
    | some a => exact Set_attrs_of_ne _ _ _ _ _ (by decide)
  · intro hnone
    rw [hnone]
    cases eni.Association with
    | none => rfl
    | some b => exact Set_attrs_of_ne _ _ _ _ _ (by decide)
  · intro b hsome
    rw [hsome]
    cases eni.Attachment with
    | none => exact Set_attrs_self _ _ _ _
    | some a =>
      simp only
      rw [Set_attrs_of_ne _ _ _ _ _ (by decide)]
      exact Set_attrs_self _ _ _ _
  · intro a hsome
    rw [hsome]
    simp only
    rw [Set_attrs_self]
    cases eni.Association with
    | none => rfl
    | some b =>
      simp only
      rw [Set_attrs_of_ne _ _ _ _ _ (by decide)]
      rfl

/-- C13 on an interface with an attachment and no association: `attachment`
becomes the one-element list and `association` stays unset. -/
theorem read_association_attachment_witness :
    (dataSourceNetworkInterfaceRead acceptAll plainHelpers (dataWithId "eni-1")
        (fixedEC2 (Except.ok (some { NetworkInterfaces :=
          [attachedInterface "eni-1" "eni-attach-1"] }))) freshWorld).2.1.attrs "association" =
      (dataWithId "eni-1").attrs "association" ∧
    (dataSourceNetworkInterfaceRead acceptAll plainHelpers (dataWithId "eni-1")
        (fixedEC2 (Except.ok (some { NetworkInterfaces :=
          [attachedInterface "eni-1" "eni-attach-1"] }))) freshWorld).2.1.attrs "attachment" =
      some (Value.list [Value.map [("attachment_id", Value.str "eni-attach-1")]]) :=
  ⟨(read_association_attachment acceptAll plainHelpers (dataWithId "eni-1")
      (fixedEC2 (Except.ok (some { NetworkInterfaces :=
        [attachedInterface "eni-1" "eni-attach-1"] }))) freshWorld (requestById "eni-1")
      { NetworkInterfaces := [attachedInterface "eni-1" "eni-attach-1"] }
      (attachedInterface "eni-1" "eni-attach-1") rfl rfl rfl).1 rfl,
    (read_association_attachment acceptAll plainHelpers (dataWithId "eni-1")
      (fixedEC2 (Except.ok (some { NetworkInterfaces :=
        [attachedInterface "eni-1" "eni-attach-1"] }))) freshWorld (requestById "eni-1")
      { NetworkInterfaces := [attachedInterface "eni-1" "eni-attach-1"] }
      (attachedInterface "eni-1" "eni-attach-1") rfl rfl rfl).2.2.2 "eni-attach-1" rfl⟩

/-- C14: when one interface matches, the read returns an error if and only
if the write of `tags` is rejected, and the error is then the framework's
error wrapped as "error setting tags"; the verdicts on the other writes play
no part. -/
theorem read_error_iff_tags {T : SdkTypes} {σ : Type} (verdict : SetVerdict)
    (h : Helpers T) (d : ResourceData) (client : AWSClient T σ) (w : EC2World T σ)
    (input : DescribeNetworkInterfacesInput T) (out : DescribeNetworkInterfacesOutput T)
    (eni : NetworkInterface T)
    (hin : dataSourceNetworkInterfaceInput h d = some input)
    (hans : (client.EC2Conn w.remote input).1 = Except.ok (some out))
    (hone : out.NetworkInterfaces = [eni]) :
    ((∃ e, (dataSourceNetworkInterfaceRead verdict h d client w).1 = Outcome.err e) ↔
      ∃ msg, verdict "tags" (h.Map (h.IgnoreConfig (h.IgnoreAWS (h.KeyValueTags eni.TagSet))
        client.IgnoreTagsConfig)) = some msg) ∧
    (∀ msg, verdict "tags" (h.Map (h.IgnoreConfig (h.IgnoreAWS (h.KeyValueTags eni.TagSet))
        client.IgnoreTagsConfig)) = some msg →
      (dataSourceNetworkInterfaceRead verdict h d client w).1 =
        Outcome.err (GoError.wrapf "error setting tags" (GoError.host msg))) ∧
    (verdict "tags" (h.Map (h.IgnoreConfig (h.IgnoreAWS (h.KeyValueTags eni.TagSet))
        client.IgnoreTagsConfig)) = none →
      (dataSourceNetworkInterfaceRead verdict h d client w).1 = Outcome.nil) := by
  rw [((read_of_answer verdict h d client w input hin).2.2.2.2 out eni hans hone).1,
    setNetworkInterface_outcome]
  cases verdict "tags" (h.Map (h.IgnoreConfig (h.IgnoreAWS (h.KeyValueTags eni.TagSet))
      client.IgnoreTagsConfig)) with
  | none => simp
  | some msg => simp

/-- C14 on a framework that rejects every write but `tags`: the read returns
`nil`; on one that rejects `tags` only: the wrapped error. -/
theorem read_error_iff_tags_witness :
    (dataSourceNetworkInterfaceRead rejectAllButTags plainHelpers (dataWithId "eni-1")
        (fixedEC2 (Except.ok (some { NetworkInterfaces :=
          [attachedInterface "eni-1" "eni-attach-1"] }))) freshWorld).1 = Outcome.nil ∧
    (dataSourceNetworkInterfaceRead rejectTags plainHelpers (dataWithId "eni-1")
        (fixedEC2 (Except.ok (some { NetworkInterfaces :=
          [attachedInterface "eni-1" "eni-attach-1"] }))) freshWorld).1 =
      Outcome.err (GoError.wrapf "error setting tags" (GoError.host "tags: bad value")) :=
  ⟨(read_error_iff_tags rejectAllButTags plainHelpers (dataWithId "eni-1")
      (fixedEC2 (Except.ok (some { NetworkInterfaces :=
        [attachedInterface "eni-1" "eni-attach-1"] }))) freshWorld (requestById "eni-1")
      { NetworkInterfaces := [attachedInterface "eni-1" "eni-attach-1"] }
      (attachedInterface "eni-1" "eni-attach-1") rfl rfl rfl).2.2 rfl,
    (read_error_iff_tags rejectTags plainHelpers (dataWithId "eni-1")
      (fixedEC2 (Except.ok (some { NetworkInterfaces :=
        [attachedInterface "eni-1" "eni-attach-1"] }))) freshWorld (requestById "eni-1")
      { NetworkInterfaces := [attachedInterface "eni-1" "eni-attach-1"] }
      (attachedInterface "eni-1" "eni-attach-1") rfl rfl rfl).2.1 "tags: bad value" rfl⟩

/-! ## The attributes the read writes and the schema -/

/-- The keys of the schema of the data source, whatever the schemas of
`filter` and `tags`. -/
theorem schema_keys (DataSourceFiltersSchema TagsSchemaComputed : Schema) :
    (DataSourceNetworkInterface DataSourceFiltersSchema TagsSchemaComputed).map Prod.fst =
      ["id", "filter", "association", "attachment", "availability_zone", "description",
        "security_groups", "interface_type", "ipv6_addresses", "mac_address", "owner_id",
        "private_dns_name", "private_ip", "private_ips", "requester_id", "subnet_id",
        "outpost_arn", "vpc_id", "tags"] :=
  rfl

/-- The write of the ID leaves every attribute but `id` as it was. -/
theorem SetId_attrs_of_ne (d : ResourceData) (v k : String) (hk : k ≠ "id") :
    (d.SetId v).attrs k = d.attrs k := by
  simp only [ResourceData.SetId, if_neg hk]

/-- The write of the ID stores the same string in the attribute `id`. -/
theorem SetId_attrs_id (d : ResourceData) (v : String) :
    (d.SetId v).attrs "id" = some (Value.str v) := by
  simp only [ResourceData.SetId, if_true]

/-- The read leaves every attribute outside `id` and the seventeen it writes
with `d.Set` as it was, in every run. -/
theorem read_attrs_frame {T : SdkTypes} {σ : Type} (verdict : SetVerdict) (h : Helpers T)
    (d : ResourceData) (client : AWSClient T σ) (w : EC2World T σ) (k : String)
    (hid : k ≠ "id")
    (hk : k ∉ ["association", "attachment", "availability_zone", "description",
      "security_groups", "interface_type", "ipv6_addresses", "mac_address", "owner_id",
      "private_dns_name", "private_ip", "private_ips", "requester_id", "subnet_id",
      "outpost_arn", "vpc_id", "tags"]) :
    (dataSourceNetworkInterfaceRead verdict h d client w).2.1.attrs k = d.attrs k := by
  have hassoc : k ≠ "association" := fun hkk => hk (by rw [hkk]; decide)
  have hattach : k ≠ "attachment" := fun hkk => hk (by rw [hkk]; decide)
  have htags : k ≠ "tags" := fun hkk => hk (by rw [hkk]; decide)
  have hplain : k ∉ ["availability_zone", "description", "security_groups", "interface_type",
      "ipv6_addresses", "mac_address", "owner_id", "private_dns_name", "private_ip",
      "private_ips", "requester_id", "subnet_id", "outpost_arn", "vpc_id"] := by
    intro hmem
    apply hk
    simp only [List.mem_cons, List.mem_singleton, List.not_mem_nil, or_false] at hmem ⊢
    tauto
  cases hin : dataSourceNetworkInterfaceInput h d with
  | none => rw [read_of_no_input verdict h d client w hin]
  | some input =>
    obtain ⟨herr, hnil, hzero, hmany, hone⟩ := read_of_answer verdict h d client w input hin
    cases hans : (client.EC2Conn w.remote input).1 with
    | error e => rw [(herr e hans).2]
    | ok resp =>
      cases resp with
      | none => rw [(hnil hans).2]
      | some out =>
        rcases list_trichotomy out.NetworkInterfaces with h0 | ⟨eni, h1⟩ | h2
        · rw [(hzero out hans h0).2]
        · rw [(hone out eni hans h1).2, setNetworkInterface_data,
            Set_attrs_of_ne _ _ _ _ _ htags, setPlainAttributes_attrs _ _ _ _ _ hplain]
          cases eni.Attachment with
          | none =>
            cases eni.Association with
            | none => exact SetId_attrs_of_ne _ _ _ hid
            | some b =>
              simp only
              rw [Set_attrs_of_ne _ _ _ _ _ hassoc]
              exact SetId_attrs_of_ne _ _ _ hid
          | some a =>
            simp only
            rw [Set_attrs_of_ne _ _ _ _ _ hattach]
            cases eni.Association with
            | none => exact SetId_attrs_of_ne _ _ _ hid
            | some b =>
              simp only
              rw [Set_attrs_of_ne _ _ _ _ _ hassoc]
              exact SetId_attrs_of_ne _ _ _ hid
        · rw [(hmany out hans h2).2]

/-- The resource data after the writes for an interface is the data after
`d.SetId` followed by the `d.Set` calls in order, each one kept when the
framework accepts it. -/
theorem setNetworkInterface_eq_calls {T : SdkTypes} (verdict : SetVerdict) (h : Helpers T)
    (cfg : T.IgnoreConfig) (eni : NetworkInterface T) (d : ResourceData) :
    (setNetworkInterface verdict h cfg eni d).2 =
      (networkInterfaceSetCalls h cfg eni).foldl
        (fun acc call => (acc.Set verdict call.1 call.2).1)
        (d.SetId (StringValue eni.NetworkInterfaceId)) := by
  rw [setNetworkInterface_data]
  unfold networkInterfaceSetCalls setPlainAttributes
  cases eni.Association <;> cases eni.Attachment <;> rfl

/-- The keys of the `d.Set` calls for an interface: `association` and
`attachment` when the interface has them, then the fifteen others. -/
theorem networkInterfaceSetCalls_keys {T : SdkTypes} (h : Helpers T) (cfg : T.IgnoreConfig)
    (eni : NetworkInterface T) :
    (networkInterfaceSetCalls h cfg eni).map Prod.fst =
      (if eni.Association.isSome then ["association"] else []) ++
      (if eni.Attachment.isSome then ["attachment"] else []) ++
      ["availability_zone", "description", "security_groups", "interface_type",
        "ipv6_addresses", "mac_address", "owner_id", "private_dns_name", "private_ip",
        "private_ips", "requester_id", "subnet_id", "outpost_arn", "vpc_id", "tags"] := by
  unfold networkInterfaceSetCalls
  cases eni.Association <;> cases eni.Attachment <;> rfl

/-- C12: the attributes that the read can write with `d.Set` are the keys of
the schema returned by `DataSourceNetworkInterface` other than `id` and
`filter`. For every interface the keys of the `d.Set` calls are `association`
and `attachment` when the interface has them, followed by the fifteen other
declared attributes; and in every run with one matching interface the
resource data after the read is the data after `d.SetId` and these calls. -/
theorem written_attributes_eq_schema (DataSourceFiltersSchema TagsSchemaComputed : Schema)
    (k : String) :
    (CanWrite k ↔
      k ∈ (DataSourceNetworkInterface DataSourceFiltersSchema TagsSchemaComputed).map
          Prod.fst ∧
        k ≠ "id" ∧ k ≠ "filter") ∧
    (∀ (T : SdkTypes) (h : Helpers T) (cfg : T.IgnoreConfig) (eni : NetworkInterface T),
      (networkInterfaceSetCalls h cfg eni).map Prod.fst =
        (if eni.Association.isSome then ["association"] else []) ++
        (if eni.Attachment.isSome then ["attachment"] else []) ++
        ["availability_zone", "description", "security_groups", "interface_type",
          "ipv6_addresses", "mac_address", "owner_id", "private_dns_name", "private_ip",
          "private_ips", "requester_id", "subnet_id", "outpost_arn", "vpc_id", "tags"]) ∧
    (∀ (T : SdkTypes) (σ : Type) (verdict : SetVerdict) (h : Helpers T) (d : ResourceData)
      (client : AWSClient T σ) (w : EC2World T σ) (input : DescribeNetworkInterfacesInput T)
      (out : DescribeNetworkInterfacesOutput T) (eni : NetworkInterface T),
      dataSourceNetworkInterfaceInput h d = some input →
      (client.EC2Conn w.remote input).1 = Except.ok (some out) →
      out.NetworkInterfaces = [eni] →
      (dataSourceNetworkInterfaceRead verdict h d client w).2.1 =
        (networkInterfaceSetCalls h client.IgnoreTagsConfig eni).foldl
          (fun acc call => (acc.Set verdict call.1 call.2).1)
          (d.SetId (StringValue eni.NetworkInterfaceId))) := by
  refine ⟨?_, fun T h cfg eni => networkInterfaceSetCalls_keys h cfg eni, ?_⟩
  · rw [schema_keys]
    have hlist : (k ∈ ["id", "filter", "association", "attachment", "availability_zone",
          "description", "security_groups", "interface_type", "ipv6_addresses", "mac_address",
          "owner_id", "private_dns_name", "private_ip", "private_ips", "requester_id",
          "subnet_id", "outpost_arn", "vpc_id", "tags"] ∧ k ≠ "id" ∧ k ≠ "filter") ↔
        k ∈ ["association", "attachment", "availability_zone", "description",
          "security_groups", "interface_type", "ipv6_addresses", "mac_address", "owner_id",
          "private_dns_name", "private_ip", "private_ips", "requester_id", "subnet_id",
          "outpost_arn", "vpc_id", "tags"] := by
      constructor
      · rintro ⟨hmem, hid, hfilter⟩
        rcases List.mem_cons.1 hmem with h1 | h1
        · exact absurd h1 hid
        · rcases List.mem_cons.1 h1 with h2 | h2
          · exact absurd h2 hfilter
          · exact h2
      · intro hmem
        refine ⟨List.mem_cons_of_mem _ (List.mem_cons_of_mem _ hmem), ?_, ?_⟩
        · intro hid
          rw [hid] at hmem
          exact absurd hmem (by decide)
        · intro hfilter
          rw [hfilter] at hmem
          exact absurd hmem (by decide)
    rw [hlist]
    constructor
    · rintro ⟨T, h, cfg, eni, v, hmem⟩
      have hkey : k ∈ (networkInterfaceSetCalls h cfg eni).map Prod.fst :=
        List.mem_map.2 ⟨(k, v), hmem, rfl⟩
      rw [networkInterfaceSetCalls_keys] at hkey
      rcases List.mem_append.1 hkey with hhead | htail
      · rcases List.mem_append.1 hhead with hassoc | hattach
        · have hk : k = "association" := by
            cases hsome : eni.Association.isSome with
            | true => rw [hsome] at hassoc; simpa using hassoc
            | false => rw [hsome] at hassoc; simp at hassoc
          rw [hk]
          decide
        · have hk : k = "attachment" := by
            cases hsome : eni.Attachment.isSome with
            | true => rw [hsome] at hattach; simpa using hattach
            | false => rw [hsome] at hattach; simp at hattach
          rw [hk]
          decide
      · exact List.mem_cons_of_mem _ (List.mem_cons_of_mem _ htail)
    · intro hk
      have hkey : k ∈ (networkInterfaceSetCalls plainHelpers [] fullInterface).map
          Prod.fst := by
        rw [networkInterfaceSetCalls_keys]
        exact hk
      obtain ⟨call, hcall, hfst⟩ := List.mem_map.1 hkey
      refine ⟨plainTypes, plainHelpers, [], fullInterface, call.2, ?_⟩
      rw [← hfst]
      exact hcall
  · intro T σ verdict h d client w input out eni hin hans hone
    rw [((read_of_answer verdict h d client w input hin).2.2.2.2 out eni hans hone).2]
    exact setNetworkInterface_eq_calls verdict h client.IgnoreTagsConfig eni d

/-- C12 on two names: `vpc_id` can be written with `d.Set`, `id` cannot. -/
theorem written_attributes_eq_schema_witness :
    CanWrite "vpc_id" ∧ ¬ CanWrite "id" :=
  ⟨(written_attributes_eq_schema (Schema.plain ValueType.TypeMap false true)
      (Schema.plain ValueType.TypeMap false true) "vpc_id").1.2 (by decide),
    fun hcan => ((written_attributes_eq_schema (Schema.plain ValueType.TypeMap false true)
      (Schema.plain ValueType.TypeMap false true) "id").1.1 hcan).2.1 rfl⟩

/-- In a run with one matching interface the attribute `id` after the read
is the interface's `NetworkInterfaceId`, written by `d.SetId`. -/
theorem read_id_attribute {T : SdkTypes} {σ : Type} (verdict : SetVerdict) (h : Helpers T)
    (d : ResourceData) (client : AWSClient T σ) (w : EC2World T σ)
    (input : DescribeNetworkInterfacesInput T) (out : DescribeNetworkInterfacesOutput T)
    (eni : NetworkInterface T)
    (hin : dataSourceNetworkInterfaceInput h d = some input)
    (hans : (client.EC2Conn w.remote input).1 = Except.ok (some out))
    (hone : out.NetworkInterfaces = [eni]) :
    (dataSourceNetworkInterfaceRead verdict h d client w).2.1.attrs "id" =
      some (Value.str (StringValue eni.NetworkInterfaceId)) := by
  rw [((read_of_answer verdict h d client w input hin).2.2.2.2 out eni hans hone).2,
    setNetworkInterface_data, Set_attrs_of_ne _ _ _ _ _ (by decide),
    setPlainAttributes_attrs _ _ _ _ _ (by decide)]
  cases eni.Attachment with
  | none =>
    cases eni.Association with
    | none => exact SetId_attrs_id _ _
    | some b =>
      simp only
      rw [Set_attrs_of_ne _ _ _ _ _ (by decide)]
      exact SetId_attrs_id _ _
  | some a =>
    simp only
    rw [Set_attrs_of_ne _ _ _ _ _ (by decide)]
    cases eni.Association with
    | none => exact SetId_attrs_id _ _
    | some b =>
      simp only
      rw [Set_attrs_of_ne _ _ _ _ _ (by decide)]
      exact SetId_attrs_id _ _

/-! ## Properties of the Spot Fleet checks and configurations -/

/-- The recreated check stops the test exactly when the two request ID
pointers are equal as pointers. -/
theorem recreated_fatal_iff (before after : SpotFleetRequestConfig) :
    testAccCheckSpotFleetRequestRecreatedConfig before after ≠
        CheckResult.returned Outcome.nil ↔
      ptrEq before.SpotFleetRequestId after.SpotFleetRequestId = true := by
  unfold testAccCheckSpotFleetRequestRecreatedConfig
  by_cases hp : ptrEq before.SpotFleetRequestId after.SpotFleetRequestId = true
  · rw [if_pos hp]
    simp [hp]
  · rw [if_neg hp]
    simp [hp]

/-- C15, the code at the failing input: two exists checks observe the same
request ID `sfr-1`, each in its own response; the recreated check on the two
captured configurations returns `nil` and does not stop the test. -/
theorem recreated_check_passes_on_same_id :
    (testAccCheckSpotFleetRequestExists (sameRequestId "sfr-1") "aws_spot_fleet_request.test"
        zeroSpotFleetRequestConfig (spotFleetState "sfr-1")
        { remote := 0, calls := [] }).1 = Outcome.nil ∧
    (testAccCheckSpotFleetRequestExists (sameRequestId "sfr-1") "aws_spot_fleet_request.test"
        zeroSpotFleetRequestConfig (spotFleetState "sfr-1")
        (testAccCheckSpotFleetRequestExists (sameRequestId "sfr-1")
          "aws_spot_fleet_request.test" zeroSpotFleetRequestConfig (spotFleetState "sfr-1")
          { remote := 0, calls := [] }).2.2).1 = Outcome.nil ∧
    (testAccCheckSpotFleetRequestExists (sameRequestId "sfr-1") "aws_spot_fleet_request.test"
        zeroSpotFleetRequestConfig (spotFleetState "sfr-1")
        { remote := 0, calls := [] }).2.1.SpotFleetRequestId.map StringPtr.val =
      some "sfr-1" ∧
    (testAccCheckSpotFleetRequestExists (sameRequestId "sfr-1") "aws_spot_fleet_request.test"
        zeroSpotFleetRequestConfig (spotFleetState "sfr-1")
        (testAccCheckSpotFleetRequestExists (sameRequestId "sfr-1")
          "aws_spot_fleet_request.test" zeroSpotFleetRequestConfig (spotFleetState "sfr-1")
          { remote := 0, calls := [] }).2.2).2.1.SpotFleetRequestId.map StringPtr.val =
      some "sfr-1" ∧
    testAccCheckSpotFleetRequestRecreatedConfig
        (testAccCheckSpotFleetRequestExists (sameRequestId "sfr-1")
          "aws_spot_fleet_request.test" zeroSpotFleetRequestConfig (spotFleetState "sfr-1")
          { remote := 0, calls := [] }).2.1
        (testAccCheckSpotFleetRequestExists (sameRequestId "sfr-1")
          "aws_spot_fleet_request.test" zeroSpotFleetRequestConfig (spotFleetState "sfr-1")
          (testAccCheckSpotFleetRequestExists (sameRequestId "sfr-1")
            "aws_spot_fleet_request.test" zeroSpotFleetRequestConfig (spotFleetState "sfr-1")
            { remote := 0, calls := [] }).2.2).2.1 =
      CheckResult.returned Outcome.nil := by
  decide

/-- C16 as stated fails: the two configurations do not set different values
of `spot_price`; at the arguments below both set `"0.05"`. -/
theorem change_price_config_not_different :
    ¬ ∀ (baseConfig : String → String → String) (rName publicKey validUntil : String),
        hclAttribute "spot_price"
            (testAccSpotFleetRequestChangeSpotBidPriceConfig baseConfig rName publicKey
              validUntil).request ≠
          hclAttribute "spot_price"
            (testAccSpotFleetRequestConfig baseConfig rName publicKey validUntil).request :=
  fun hall => hall (fun _ _ => "") "tf-acc-test-1" "ssh-rsa AAAA" "2026-11-05T00:00:00Z" rfl

/-- C16, amended: for every `rName`, `publicKey` and `validUntil`, both
configurations set `spot_price` to `"0.05"`, the value that the test expects
in both of its steps; they share the base configuration and the attributes
of the request but for `instance_interruption_behaviour`, which only
`testAccSpotFleetRequestConfig` sets. -/
theorem change_price_config_keeps_price (baseConfig : String → String → String)
    (rName publicKey validUntil : String) :
    hclAttribute "spot_price"
        (testAccSpotFleetRequestConfig baseConfig rName publicKey validUntil).request =
      some (HclExpr.str "0.05") ∧
    hclAttribute "spot_price"
        (testAccSpotFleetRequestChangeSpotBidPriceConfig baseConfig rName publicKey
          validUntil).request =
      some (HclExpr.str "0.05") ∧
    (testAccSpotFleetRequestChangeSpotBidPriceConfig baseConfig rName publicKey
        validUntil).base =
      (testAccSpotFleetRequestConfig baseConfig rName publicKey validUntil).base ∧
    hclAttributeNames
        (testAccSpotFleetRequestChangeSpotBidPriceConfig baseConfig rName publicKey
          validUntil).request =
      (hclAttributeNames
        (testAccSpotFleetRequestConfig baseConfig rName publicKey validUntil).request).filter
        (fun n => n != "instance_interruption_behaviour") :=
  ⟨rfl, rfl, rfl, rfl⟩

/-- C17, the code at the failing inputs: the check rejects the instance
profile ARN whose name starts with a hyphen, and accepts a string that only
contains something like an ARN. -/
theorem instance_profile_check_at_failing_inputs :
    testAccCheckSpotFleetRequest_IAMInstanceProfileARN "aws"
        (configWithProfileArn "arn:aws:iam::123456789012:instance-profile/-test") =
      Outcome.err (GoError.errorf
        "Expected IamInstanceProfile input as ARN, got arn:aws:iam::123456789012:instance-profile/-test") ∧
    testAccCheckSpotFleetRequest_IAMInstanceProfileARN "aws"
        (configWithProfileArn "not an ARN: arn:aws:iam::123456789012:instance-profiles") =
      Outcome.nil := by
  decide

/-! ## The matcher against the strings a pattern matches -/

/-- What a sequence matches. -/
theorem matches_seq_iff (a b : Regex) (s : List Char) :
    Regex.Matches (Regex.seq a b) s ↔
      ∃ s1 s2, s = s1 ++ s2 ∧ Regex.Matches a s1 ∧ Regex.Matches b s2 := by
  constructor
  · intro h
    cases h with
    | seq _ _ s1 s2 ha hb => exact ⟨s1, s2, rfl, ha, hb⟩
  · rintro ⟨s1, s2, rfl, ha, hb⟩
    exact Regex.Matches.seq a b s1 s2 ha hb

/-- What an alternative matches. -/
theorem matches_alt_iff (a b : Regex) (s : List Char) :
    Regex.Matches (Regex.alt a b) s ↔ Regex.Matches a s ∨ Regex.Matches b s := by
  constructor
  · intro h
    cases h with
    | altLeft _ _ _ ha => exact Or.inl ha
    | altRight _ _ _ hb => exact Or.inr hb
  · rintro (ha | hb)
    · exact Regex.Matches.altLeft a b s ha
    · exact Regex.Matches.altRight a b s hb

/-- The pattern `fail` matches nothing. -/
theorem not_matches_fail (s : List Char) : ¬ Regex.Matches Regex.fail s := by
  intro h
  cases h

/-- The pattern `eps` matches the empty string only. -/
theorem matches_eps_iff (s : List Char) : Regex.Matches Regex.eps s ↔ s = [] := by
  constructor
  · intro h
    cases h
    rfl
  · rintro rfl
    exact Regex.Matches.eps

/-- A class matches one character that it holds. -/
theorem matches_cls_iff (k : CharClass) (s : List Char) :
    Regex.Matches (Regex.cls k) s ↔ ∃ c, s = [c] ∧ k.holds c = true := by
  constructor
  · intro h
    cases h with
    | cls _ c hc => exact ⟨c, rfl, hc⟩
  · rintro ⟨c, rfl, hc⟩
    exact Regex.Matches.cls k c hc

/-- The simplified sequence matches what the sequence matches. -/
theorem matches_mkSeq_iff (a b : Regex) (s : List Char) :
    Regex.Matches (Regex.mkSeq a b) s ↔ Regex.Matches (Regex.seq a b) s := by
  cases a with
  | fail =>
    simp only [Regex.mkSeq, matches_seq_iff]
    constructor
    · intro h
      exact absurd h (not_matches_fail s)
    · rintro ⟨s1, s2, -, ha, -⟩
      exact absurd ha (not_matches_fail s1)
  | eps =>
    simp only [Regex.mkSeq, matches_seq_iff, matches_eps_iff]
    constructor
    · intro h
      exact ⟨[], s, rfl, rfl, h⟩
    · rintro ⟨s1, s2, rfl, rfl, hb⟩
      exact hb
  | cls k => rfl
  | seq x y => rfl
  | alt x y => rfl
  | star x => rfl

/-- The simplified alternative matches what the alternative matches. -/
theorem matches_mkAlt_iff (a b : Regex) (s : List Char) :
    Regex.Matches (Regex.mkAlt a b) s ↔ Regex.Matches a s ∨ Regex.Matches b s := by
  have hfail : ∀ t, ¬ Regex.Matches Regex.fail t := not_matches_fail
  cases a <;> cases b <;> simp [Regex.mkAlt, matches_alt_iff, hfail]

/-- A pattern is nullable exactly when it matches the empty string. -/
theorem nullable_iff (r : Regex) : r.nullable = true ↔ Regex.Matches r [] := by
  induction r with
  | fail => simp [Regex.nullable, not_matches_fail]
  | eps => simp [Regex.nullable, matches_eps_iff]
  | cls k => simp [Regex.nullable, matches_cls_iff]
  | seq a b iha ihb =>
    simp only [Regex.nullable, Bool.and_eq_true, iha, ihb, matches_seq_iff]
    constructor
    · rintro ⟨ha, hb⟩
      exact ⟨[], [], rfl, ha, hb⟩
    · rintro ⟨s1, s2, hs, ha, hb⟩
      have h1 : s1 = [] := by
        cases s1 with
        | nil => rfl
        | cons x xs => simp at hs
      have h2 : s2 = [] := by
        subst h1
        simpa using hs.symm
      subst h1
      subst h2
      exact ⟨ha, hb⟩
  | alt a b iha ihb =>
    simp only [Regex.nullable, Bool.or_eq_true, iha, ihb, matches_alt_iff]
  | star a _ =>
    simp only [Regex.nullable, true_iff]
    exact Regex.Matches.starNil a

/-- A non-empty match of a star starts with a non-empty match of its body. -/
theorem matches_star_cons (a : Regex) (c : Char) (s : List Char)
    (h : Regex.Matches (Regex.star a) (c :: s)) :
    ∃ s1 s2, s = s1 ++ s2 ∧ Regex.Matches a (c :: s1) ∧ Regex.Matches (Regex.star a) s2 := by
  generalize hr : Regex.star a = r at h
  generalize hcs : c :: s = cs at h
  induction h generalizing s with
  | eps => exact Regex.noConfusion hr
  | cls _ _ _ => exact Regex.noConfusion hr
  | seq _ _ _ _ _ _ _ _ => exact Regex.noConfusion hr
  | altLeft _ _ _ _ _ => exact Regex.noConfusion hr
  | altRight _ _ _ _ _ => exact Regex.noConfusion hr
  | starNil _ => exact List.noConfusion hcs
  | starCons b s1 t ha ht _ iht =>
    have hb : a = b := Regex.star.inj hr
    subst hb
    cases s1 with
    | nil => exact iht s rfl (by simpa using hcs)
    | cons x xs =>
      simp only [List.cons_append, List.cons.injEq] at hcs
      obtain ⟨hx, hs⟩ := hcs
      subst hx
      exact ⟨xs, t, hs, ha, ht⟩

/-- The derivative by `c` matches `s` exactly when the pattern matches
`c :: s`. -/
theorem deriv_iff (c : Char) (r : Regex) (s : List Char) :
    Regex.Matches (Regex.deriv c r) s ↔ Regex.Matches r (c :: s) := by
  induction r generalizing s with
  | fail => simp [Regex.deriv, not_matches_fail]
  | eps => simp [Regex.deriv, not_matches_fail, matches_eps_iff]
  | cls k =>
    simp only [Regex.deriv, matches_cls_iff]
    by_cases hk : k.holds c = true
    · rw [if_pos hk, matches_eps_iff]
      constructor
      · rintro rfl
        exact ⟨c, rfl, hk⟩
      · rintro ⟨c2, hc2, -⟩
        exact (List.cons.inj hc2).2
    · rw [if_neg hk]
      constructor
      · intro h
        exact absurd h (not_matches_fail s)
      · rintro ⟨c2, hc2, hk2⟩
        have hcc : c = c2 := (List.cons.inj hc2).1
        rw [← hcc] at hk2
        exact absurd hk2 hk
  | seq a b iha ihb =>
    have hstep : (Regex.Matches (Regex.mkSeq (Regex.deriv c a) b) s ∨
          (Regex.Matches a [] ∧ Regex.Matches b (c :: s))) ↔
        Regex.Matches (Regex.seq a b) (c :: s) := by
      rw [matches_mkSeq_iff, matches_seq_iff, matches_seq_iff]
      constructor
      · rintro (⟨s1, s2, rfl, ha, hb⟩ | ⟨ha, hb⟩)
        · exact ⟨c :: s1, s2, rfl, (iha s1).1 ha, hb⟩
        · exact ⟨[], c :: s, rfl, ha, hb⟩
      · rintro ⟨s1, s2, hs, ha, hb⟩
        cases s1 with
        | nil =>
          simp only [List.nil_append] at hs
          subst hs
          exact Or.inr ⟨ha, hb⟩
        | cons x xs =>
          simp only [List.cons_append, List.cons.injEq] at hs
          obtain ⟨hx, hs⟩ := hs
          subst hx
          exact Or.inl ⟨xs, s2, hs, (iha xs).2 ha, hb⟩
    simp only [Regex.deriv]
    by_cases hn : a.nullable = true
    · rw [if_pos hn, matches_mkAlt_iff, ihb, ← hstep]
      have hnil := (nullable_iff a).1 hn
      constructor
      · rintro (h | h)
        · exact Or.inl h
        · exact Or.inr ⟨hnil, h⟩
      · rintro (h | ⟨-, h⟩)
        · exact Or.inl h
        · exact Or.inr h
    · rw [if_neg hn, ← hstep]
      constructor
      · intro h
        exact Or.inl h
      · rintro (h | ⟨hnil, -⟩)
        · exact h
        · exact absurd ((nullable_iff a).2 hnil) hn
  | alt a b iha ihb =>
    simp only [Regex.deriv, matches_mkAlt_iff, matches_alt_iff, iha, ihb]
  | star a iha =>
    simp only [Regex.deriv]
    rw [matches_mkSeq_iff, matches_seq_iff]
    constructor
    · rintro ⟨s1, s2, rfl, ha, hs⟩
      exact Regex.Matches.starCons a (c :: s1) s2 ((iha s1).1 ha) hs
    · intro h
      obtain ⟨s1, s2, hs, ha, ht⟩ := matches_star_cons a c s h
      exact ⟨s1, s2, hs, (iha s1).2 ha, ht⟩

/-- The matcher accepts exactly the strings the pattern matches. -/
theorem matchesAll_iff (r : Regex) (s : List Char) :
    r.matchesAll s = true ↔ Regex.Matches r s := by
  unfold Regex.matchesAll
  induction s generalizing r with
  | nil => exact nullable_iff r
  | cons c s ih =>
    simp only [List.foldl_cons]
    rw [ih (Regex.deriv c r), deriv_iff]

/-- The pattern `anyRune*` matches every string. -/
theorem matches_star_anyRune (s : List Char) :
    Regex.Matches (Regex.star Regex.anyRune) s := by
  induction s with
  | nil => exact Regex.Matches.starNil _
  | cons c s ih =>
    exact Regex.Matches.starCons Regex.anyRune [c] s
      (Regex.Matches.cls _ c (by simp [CharClass.holds])) ih

/-- `MatchString` accepts a string exactly when some substring of it is
matched by the pattern. -/
theorem MatchString_iff (re : Regex) (s : String) :
    MatchString re s = true ↔ ∃ p m q, s.data = p ++ m ++ q ∧ Regex.Matches re m := by
  unfold MatchString
  rw [matchesAll_iff, matches_seq_iff]
  constructor
  · rintro ⟨p, rest, hs, -, hrest⟩
    obtain ⟨m, q, hmq, hm, -⟩ := (matches_seq_iff _ _ _).1 hrest
    exact ⟨p, m, q, by rw [hs, hmq, List.append_assoc], hm⟩
  · rintro ⟨p, m, q, hs, hm⟩
    exact ⟨p, m ++ q, by rw [hs, List.append_assoc], matches_star_anyRune p,
      Regex.Matches.seq _ _ m q hm (matches_star_anyRune q)⟩

/-- On a configuration whose first launch specification has an instance
profile with an ARN, the check returns `nil` exactly when some substring of
the ARN is matched by the pattern. -/
theorem instance_profile_check_nil_iff (partition arn : String) :
    testAccCheckSpotFleetRequest_IAMInstanceProfileARN partition (configWithProfileArn arn) =
        Outcome.nil ↔
      ∃ p m q, arn.data = p ++ m ++ q ∧
        Regex.Matches (instanceProfileARNPattern partition) m := by
  rw [← MatchString_iff]
  simp only [testAccCheckSpotFleetRequest_IAMInstanceProfileARN, configWithProfileArn,
    List.length_singleton, one_ne_zero, if_false]
  cases MatchString (instanceProfileARNPattern partition) arn <;> simp

/-! ## The destroy check against its condition in words -/

/-- With the empty message, `ErrMessageContains` compares the codes. -/
theorem ErrMessageContains_empty (e : SdkError) (code : String) :
    ErrMessageContains e code "" = true ↔ e.code = code := by
  unfold ErrMessageContains
  have hsub : "".data <:+: e.message.data := List.nil_infix
  simp [hsub]

/-- One step of the destroy check on a resource of another type: the
resource is skipped. -/
theorem destroy_skip {σ : Type} (parse : IDParser) (conn : DirectoryServiceConn σ)
    (key : String) (rs : ResourceState) (rest : State) (w : DSWorld σ)
    (hty : rs.rsType ≠ "aws_directory_service_conditional_forwarder") :
    testAccCheckConditionalForwarderDestroy parse conn ((key, rs) :: rest) w =
      testAccCheckConditionalForwarderDestroy parse conn rest w := by
  simp only [testAccCheckConditionalForwarderDestroy, hty, ne_eq, not_false_eq_true, if_true]

/-- The destroy check returns `nil` exactly under its condition in words. -/
theorem destroy_nil_iff_gone {σ : Type} (parse : IDParser) (conn : DirectoryServiceConn σ)
    (s : State) (w : DSWorld σ) :
    (testAccCheckConditionalForwarderDestroy parse conn s w).1 = Outcome.nil ↔
      allForwardersGone parse conn s w := by
  induction s generalizing w with
  | nil => simp [testAccCheckConditionalForwarderDestroy, allForwardersGone]
  | cons p s ih =>
    obtain ⟨key, rs⟩ := p
    by_cases hty : rs.rsType = "aws_directory_service_conditional_forwarder"
    · simp only [testAccCheckConditionalForwarderDestroy, allForwardersGone, hty, ne_eq,
        not_true_eq_false, if_false, if_true]
      cases hp : parse rs.PrimaryID with
      | error e => simp
      | ok pair =>
        obtain ⟨directoryId, domainName⟩ := pair
        simp only [Except.ok.injEq, Prod.mk.injEq]
        constructor
        · intro hres
          refine ⟨directoryId, domainName, ⟨rfl, rfl⟩, ?_⟩
          cases hc : (w.call conn ⟨directoryId, [domainName]⟩).1 with
          | error e =>
            have hpair : w.call conn ⟨directoryId, [domainName]⟩ =
                (Except.error e, (w.call conn ⟨directoryId, [domainName]⟩).2) := by
              rw [← hc]
            rw [hpair] at hres
            simp only at hres
            by_cases hcode : ErrMessageContains e ErrCodeEntityDoesNotExistException "" = true
            · rw [if_pos hcode] at hres
              exact ⟨Or.inl ⟨e, rfl, (ErrMessageContains_empty e _).1 hcode⟩, (ih _).1 hres⟩
            · rw [if_neg hcode] at hres
              simp at hres
          | ok res =>
            have hpair : w.call conn ⟨directoryId, [domainName]⟩ =
                (Except.ok res, (w.call conn ⟨directoryId, [domainName]⟩).2) := by
              rw [← hc]
            rw [hpair] at hres
            simp only at hres
            by_cases hlen : res.ConditionalForwarders.length > 0
            · rw [if_pos hlen] at hres
              simp at hres
            · rw [if_neg hlen] at hres
              refine ⟨Or.inr ⟨res, rfl, ?_⟩, (ih _).1 hres⟩
              exact List.length_eq_zero.1 (by omega)
        · rintro ⟨a, b, ⟨ha, hb⟩, hcall, hrest⟩
          subst ha
          subst hb
          rcases hcall with ⟨e, he, hcode⟩ | ⟨res, hres, hnil⟩
          · have hpair : w.call conn ⟨directoryId, [domainName]⟩ =
                (Except.error e, (w.call conn ⟨directoryId, [domainName]⟩).2) := by
              rw [← he]
            rw [hpair]
            simp only
            rw [if_pos ((ErrMessageContains_empty e _).2 hcode)]
            exact (ih _).2 hrest
          · have hpair : w.call conn ⟨directoryId, [domainName]⟩ =
                (Except.ok res, (w.call conn ⟨directoryId, [domainName]⟩).2) := by
              rw [← hres]
            rw [hpair]
            simp only
            rw [if_neg (by simp [hnil])]
            exact (ih _).2 hrest
    · rw [destroy_skip parse conn key rs s w hty]
      simp only [allForwardersGone, hty, if_false]
      exact ih w

/-- C21: the destroy check returns `nil` if and only if every resource of
type `aws_directory_service_conditional_forwarder`, in iteration order, has
an ID that decodes and a describe call that reports
`EntityDoesNotExistException` or succeeds with zero forwarders; a resource of
another type is skipped (the check goes on as if it were not in the state);
and when the check reaches a forwarder that the service still returns, it
returns the error "Expected AWS Directory Service Conditional Forwarder to be
gone, but was still found". -/
theorem destroy_spec {σ : Type} (parse : IDParser) (conn : DirectoryServiceConn σ)
    (s : State) (w : DSWorld σ) :
    ((testAccCheckConditionalForwarderDestroy parse conn s w).1 = Outcome.nil ↔
      allForwardersGone parse conn s w) ∧
    (∀ (key : String) (rs : ResourceState) (rest : State),
      rs.rsType ≠ "aws_directory_service_conditional_forwarder" →
      testAccCheckConditionalForwarderDestroy parse conn ((key, rs) :: rest) w =
        testAccCheckConditionalForwarderDestroy parse conn rest w) ∧
    (∀ (pre post : State) (key id directoryId domainName : String)
      (res : DescribeConditionalForwardersOutput) (w1 : DSWorld σ),
      s = pre ++ (key, { rsType := "aws_directory_service_conditional_forwarder",
                         PrimaryID := id }) :: post →
      testAccCheckConditionalForwarderDestroy parse conn pre w = (Outcome.nil, w1) →
      parse id = Except.ok (directoryId, domainName) →
      (conn w1.remote ⟨directoryId, [domainName]⟩).1 = Except.ok res →
      res.ConditionalForwarders ≠ [] →
      (testAccCheckConditionalForwarderDestroy parse conn s w).1 =
        Outcome.err (GoError.errorf
          "Expected AWS Directory Service Conditional Forwarder to be gone, but was still found")) := by
  refine ⟨destroy_nil_iff_gone parse conn s w, ?_, ?_⟩
  · intro key rs rest hty
    exact destroy_skip parse conn key rs rest w hty
  · intro pre post key id directoryId domainName res w1 hs hpre hparse hans hfound
    subst hs
    rw [destroy_append parse conn pre _ w w1 hpre]
    simp only [testAccCheckConditionalForwarderDestroy, ne_eq, not_true_eq_false, if_false,
      hparse, World.call, hans]
    have hlen : res.ConditionalForwarders.length > 0 := List.length_pos.2 hfound
    rw [if_pos hlen]

/-- C21 on the state of the acceptance test: when the service reports
`EntityDoesNotExistException` the check returns `nil`, and when it still
returns the forwarder the check returns the "still found" error. -/
theorem destroy_spec_witness :
    (testAccCheckConditionalForwarderDestroy ParseDSConditionalForwarderID
        goneDirectoryService (forwarderState "d-12345,test.example.com") freshWorld).1 =
      Outcome.nil ∧
    (testAccCheckConditionalForwarderDestroy ParseDSConditionalForwarderID
        (oneForwarder ["8.8.8.8", "1.1.1.1"]) (forwarderState "d-12345,test.example.com")
        freshWorld).1 =
      Outcome.err (GoError.errorf
        "Expected AWS Directory Service Conditional Forwarder to be gone, but was still found") :=
  ⟨(destroy_spec ParseDSConditionalForwarderID goneDirectoryService
      (forwarderState "d-12345,test.example.com") freshWorld).1.2
      ⟨"d-12345", "test.example.com", by decide,
        Or.inl ⟨{ code := "EntityDoesNotExistException", message := "" }, rfl, rfl⟩, trivial⟩,
    (destroy_spec ParseDSConditionalForwarderID (oneForwarder ["8.8.8.8", "1.1.1.1"])
      (forwarderState "d-12345,test.example.com") freshWorld).2.2 [] []
      "aws_directory_service_conditional_forwarder.fwd" "d-12345,test.example.com"
      "d-12345" "test.example.com"
      { ConditionalForwarders := [{ DnsIpAddrs := ["8.8.8.8", "1.1.1.1"] }] } freshWorld
      rfl rfl (by decide) rfl (by decide)⟩

/-! ## The Spot Fleet exists check -/

/-- A list of length one is a singleton. -/
theorem eq_singleton_of_length {α : Type} (xs : List α) (h : xs.length = 1) :
    ∃ x, xs = [x] := by
  match xs, h with
  | [x], _ => exact ⟨x, rfl⟩

/-- The Spot Fleet exists check on a resource in state with a non-empty ID,
by cases of the answer to its request. -/
theorem spot_fleet_exists_of_answer {σ : Type} (conn : SpotFleetConn σ) (n : String)
    (sfr : SpotFleetRequestConfig) (s : State) (w : SpotFleetWorld σ) (rs : ResourceState)
    (hfound : s.lookup n = some rs) (hid : rs.PrimaryID ≠ "") :
    (∀ e, (conn w.remote ⟨[rs.PrimaryID]⟩).1 = Except.error e →
      (testAccCheckSpotFleetRequestExists conn n sfr s w).1 = Outcome.err (GoError.sdk e) ∧
      (testAccCheckSpotFleetRequestExists conn n sfr s w).2.1 = sfr) ∧
    (∀ resp, (conn w.remote ⟨[rs.PrimaryID]⟩).1 = Except.ok resp →
      resp.SpotFleetRequestConfigs.length ≠ 1 →
      (testAccCheckSpotFleetRequestExists conn n sfr s w).1 =
        Outcome.err (GoError.errorf ("Expected 1 request returned, got " ++
          toString resp.SpotFleetRequestConfigs.length)) ∧
      (testAccCheckSpotFleetRequestExists conn n sfr s w).2.1 = sfr) ∧
    (∀ resp config, (conn w.remote ⟨[rs.PrimaryID]⟩).1 = Except.ok resp →
      resp.SpotFleetRequestConfigs = [config] →
      (testAccCheckSpotFleetRequestExists conn n sfr s w).1 = Outcome.nil ∧
      (testAccCheckSpotFleetRequestExists conn n sfr s w).2.1 = config) := by
  unfold testAccCheckSpotFleetRequestExists
  rw [hfound]
  simp only [hid, if_false, World.call]
  refine ⟨?_, ?_, ?_⟩
  · intro e he
    rw [he]
    exact ⟨rfl, rfl⟩
  · intro resp he hlen
    rw [he]
    simp only
    rw [if_pos hlen]
    exact ⟨rfl, rfl⟩
  · intro resp config he hone
    rw [he]
    simp [hone]

/-- C22: the Spot Fleet exists check returns `nil` if and only if the
resource is in state with a non-empty ID and the describe call succeeds with
exactly one request configuration; on success `*sfr` is that configuration,
and whenever the check does not return `nil`, `*sfr` is as before. -/
theorem spot_fleet_exists_spec {σ : Type} (conn : SpotFleetConn σ) (n : String)
    (sfr : SpotFleetRequestConfig) (s : State) (w : SpotFleetWorld σ) :
    ((testAccCheckSpotFleetRequestExists conn n sfr s w).1 = Outcome.nil ↔
      ∃ rs resp config, s.lookup n = some rs ∧ rs.PrimaryID ≠ "" ∧
        (conn w.remote ⟨[rs.PrimaryID]⟩).1 = Except.ok resp ∧
        resp.SpotFleetRequestConfigs = [config]) ∧
    (∀ rs resp config, s.lookup n = some rs → rs.PrimaryID ≠ "" →
      (conn w.remote ⟨[rs.PrimaryID]⟩).1 = Except.ok resp →
      resp.SpotFleetRequestConfigs = [config] →
      (testAccCheckSpotFleetRequestExists conn n sfr s w).2.1 = config) ∧
    ((testAccCheckSpotFleetRequestExists conn n sfr s w).1 ≠ Outcome.nil →
      (testAccCheckSpotFleetRequestExists conn n sfr s w).2.1 = sfr) := by
  have hcases : ((testAccCheckSpotFleetRequestExists conn n sfr s w).1 ≠ Outcome.nil ∧
        (testAccCheckSpotFleetRequestExists conn n sfr s w).2.1 = sfr) ∨
      ∃ rs resp config, s.lookup n = some rs ∧ rs.PrimaryID ≠ "" ∧
        (conn w.remote ⟨[rs.PrimaryID]⟩).1 = Except.ok resp ∧
        resp.SpotFleetRequestConfigs = [config] ∧
        (testAccCheckSpotFleetRequestExists conn n sfr s w).1 = Outcome.nil ∧
        (testAccCheckSpotFleetRequestExists conn n sfr s w).2.1 = config := by
    cases hfound : s.lookup n with
    | none =>
      left
      unfold testAccCheckSpotFleetRequestExists
      rw [hfound]
      exact ⟨by simp, rfl⟩
    | some rs =>
      by_cases hid : rs.PrimaryID = ""
      · left
        unfold testAccCheckSpotFleetRequestExists
        rw [hfound]
        simp [hid]
      · obtain ⟨herr, hcount, hone⟩ := spot_fleet_exists_of_answer conn n sfr s w rs hfound hid
        cases hans : (conn w.remote ⟨[rs.PrimaryID]⟩).1 with
        | error e =>
          left
          rw [(herr e hans).1]
          exact ⟨by simp, (herr e hans).2⟩
        | ok resp =>
          by_cases hlen : resp.SpotFleetRequestConfigs.length = 1
          · right
            obtain ⟨config, hconfig⟩ := eq_singleton_of_length _ hlen
            exact ⟨rs, resp, config, rfl, hid, hans, hconfig,
              (hone resp config hans hconfig).1, (hone resp config hans hconfig).2⟩
          · left
            rw [(hcount resp hans hlen).1]
            exact ⟨by simp, (hcount resp hans hlen).2⟩
  refine ⟨⟨?_, ?_⟩, ?_, ?_⟩
  · intro hnil
    rcases hcases with ⟨hne, -⟩ | ⟨rs, resp, config, h1, h2, h3, h4, -, -⟩
    · exact absurd hnil hne
    · exact ⟨rs, resp, config, h1, h2, h3, h4⟩
  · rintro ⟨rs, resp, config, h1, h2, h3, h4⟩
    exact ((spot_fleet_exists_of_answer conn n sfr s w rs h1 h2).2.2 resp config h3 h4).1
  · intro rs resp config h1 h2 h3 h4
    exact ((spot_fleet_exists_of_answer conn n sfr s w rs h1 h2).2.2 resp config h3 h4).2
  · intro hne
    rcases hcases with ⟨-, hsame⟩ | ⟨_, _, _, _, _, _, _, hnil, -⟩
    · exact hsame
    · exact absurd hnil hne

/-- C22 on a service that answers with one configuration: the check returns
`nil` and `*sfr` is that configuration; on a resource without ID the check
fails and `*sfr` is as before. -/
theorem spot_fleet_exists_spec_witness :
    (testAccCheckSpotFleetRequestExists (sameRequestId "sfr-1") "aws_spot_fleet_request.test"
        zeroSpotFleetRequestConfig (spotFleetState "sfr-1")
        { remote := 7, calls := [] }).1 = Outcome.nil ∧
    (testAccCheckSpotFleetRequestExists (sameRequestId "sfr-1") "aws_spot_fleet_request.test"
        zeroSpotFleetRequestConfig (spotFleetState "sfr-1")
        { remote := 7, calls := [] }).2.1 = configWithId 7 "sfr-1" ∧
    (testAccCheckSpotFleetRequestExists (sameRequestId "sfr-1") "aws_spot_fleet_request.test"
        (configWithId 3 "sfr-0") (spotFleetState "")
        { remote := 7, calls := [] }).2.1 = configWithId 3 "sfr-0" :=
  ⟨(spot_fleet_exists_spec (sameRequestId "sfr-1") "aws_spot_fleet_request.test"
      zeroSpotFleetRequestConfig (spotFleetState "sfr-1") { remote := 7, calls := [] }).1.2
      ⟨{ rsType := "aws_spot_fleet_request", PrimaryID := "sfr-1" },
        { SpotFleetRequestConfigs := [configWithId 7 "sfr-1"] }, configWithId 7 "sfr-1",
        rfl, by decide, rfl, rfl⟩,
    (spot_fleet_exists_spec (sameRequestId "sfr-1") "aws_spot_fleet_request.test"
      zeroSpotFleetRequestConfig (spotFleetState "sfr-1") { remote := 7, calls := [] }).2.1
      { rsType := "aws_spot_fleet_request", PrimaryID := "sfr-1" }
      { SpotFleetRequestConfigs := [configWithId 7 "sfr-1"] } (configWithId 7 "sfr-1")
      rfl (by decide) rfl rfl,
    (spot_fleet_exists_spec (sameRequestId "sfr-1") "aws_spot_fleet_request.test"
      (configWithId 3 "sfr-0") (spotFleetState "") { remote := 7, calls := [] }).2.2
      (by decide)⟩

/-! ## The index of the comparison loop -/

/-- The comparison loop from index `k` on does not read outside `dnsIps`
when the addresses left are no more than the expected ones from `k` on. -/
theorem compareDnsIps_ne_panic (dnsIps : List String) (k : Nat) (addrs : List String)
    (hlen : k + addrs.length ≤ dnsIps.length) :
    compareDnsIps dnsIps k addrs ≠ Outcome.panic := by
  induction addrs generalizing k with
  | nil => simp [compareDnsIps]
  | cons v rest ih =>
    simp only [List.length_cons] at hlen
    have hk : k < dnsIps.length := by omega
    have hget : dnsIps.get? k = some (dnsIps.get ⟨k, hk⟩) := List.get?_eq_get hk
    simp only [compareDnsIps, hget]
    split
    · simp
    · exact ih (k + 1) (by omega)

/-- Without the length check the loop would read outside `dnsIps`: on one
expected address and two returned ones, the second read is out of range. -/
theorem compareDnsIps_panics_on_longer :
    compareDnsIps ["8.8.8.8"] 0 ["8.8.8.8", "1.1.1.1"] = Outcome.panic := by
  decide

/-- C25: in the exists check every read `dnsIps[k]` of the comparison loop is
within bounds: the check never ends in a panic, for every `dnsIps`, state and
answer of the service, and the loop itself does not on two lists of equal
length. -/
theorem exists_index_in_bounds {σ : Type} (parse : IDParser) (conn : DirectoryServiceConn σ)
    (name : String) (dnsIps : Option (List String)) (s : State) (w : DSWorld σ) :
    (testAccCheckConditionalForwarderExists parse conn name dnsIps s w).1 ≠ Outcome.panic ∧
    (∀ ips addrs : List String, ips.length = addrs.length →
      compareDnsIps ips 0 addrs ≠ Outcome.panic) := by
  constructor
  · unfold testAccCheckConditionalForwarderExists
    cases s.lookup name with
    | none => simp
    | some rs =>
      simp only
      split
      · simp
      · cases parse rs.PrimaryID with
        | error e => simp
        | ok pair =>
          obtain ⟨directoryId, domainName⟩ := pair
          simp only [World.call]
          cases (conn w.remote ⟨directoryId, [domainName]⟩).1 with
          | error e => simp
          | ok res =>
            simp only
            cases res.ConditionalForwarders with
            | nil => simp
            | cons cfd rest =>
              simp only
              cases dnsIps with
              | none => simp
              | some ips =>
                simp only
                split
                · simp
                · rename_i hlen
                  have heq : ips.length = cfd.DnsIpAddrs.length := by
                    simpa using hlen
                  exact compareDnsIps_ne_panic ips 0 cfd.DnsIpAddrs (by omega)
  · intro ips addrs hlen
    exact compareDnsIps_ne_panic ips 0 addrs (by omega)

/-- C25 on the addresses of the acceptance test. -/
theorem exists_index_in_bounds_witness :
    (testAccCheckConditionalForwarderExists ParseDSConditionalForwarderID
        (oneForwarder ["8.8.8.8", "1.1.1.1"])
        "aws_directory_service_conditional_forwarder.fwd" (some ["8.8.8.8", "8.8.4.4"])
        (forwarderState "d-12345,test.example.com") freshWorld).1 ≠ Outcome.panic ∧
    compareDnsIps ["8.8.8.8", "8.8.4.4"] 0 ["8.8.8.8", "1.1.1.1"] ≠ Outcome.panic :=
  ⟨(exists_index_in_bounds ParseDSConditionalForwarderID (oneForwarder ["8.8.8.8", "1.1.1.1"])
      "aws_directory_service_conditional_forwarder.fwd" (some ["8.8.8.8", "8.8.4.4"])
      (forwarderState "d-12345,test.example.com") freshWorld).1,
    (exists_index_in_bounds ParseDSConditionalForwarderID (oneForwarder ["8.8.8.8", "1.1.1.1"])
      "aws_directory_service_conditional_forwarder.fwd" (some ["8.8.8.8", "8.8.4.4"])
      (forwarderState "d-12345,test.example.com") freshWorld).2
      ["8.8.8.8", "8.8.4.4"] ["8.8.8.8", "1.1.1.1"] rfl⟩

/-! ## The launch specification checks -/

/-- C23 as stated fails: a first launch specification with three block
device mappings, the first two named as expected, does not have exactly two
mappings, and the check returns `nil` for it. -/
theorem ebs_check_not_exactly_two :
    ¬ ∀ (sfr : SpotFleetRequestConfig) (config : SpotFleetRequestConfigData)
        (spec : SpotFleetLaunchSpecification) (rest : List SpotFleetLaunchSpecification),
        sfr.SpotFleetRequestConfig = some config →
        config.LaunchSpecifications = spec :: rest →
        spec.BlockDeviceMappings.length ≠ 2 →
        ∃ e, testAccCheckSpotFleetRequest_EBSAttributes sfr = Outcome.err e := by
  intro hall
  obtain ⟨e, he⟩ := hall (configWithDevices ["/dev/xvda", "/dev/xvdcz", "/dev/xvdf"]) _ _ _
    rfl rfl (by decide)
  have hnil : testAccCheckSpotFleetRequest_EBSAttributes
      (configWithDevices ["/dev/xvda", "/dev/xvdcz", "/dev/xvdf"]) = Outcome.nil := by
    decide
  rw [hnil] at he
  exact Outcome.noConfusion he

/-- C23, amended: with no launch specification the check returns "Missing
launch specification"; when the first launch specification has fewer than 2
block device mappings it returns the "Expected 2 block device mappings"
error; when it has 2 or more, the check returns `nil` if and only if the
first mapping is named `/dev/xvda` and the second `/dev/xvdcz`. -/
theorem ebs_check_spec (sfr : SpotFleetRequestConfig) (config : SpotFleetRequestConfigData)
    (hcfg : sfr.SpotFleetRequestConfig = some config) :
    (config.LaunchSpecifications = [] →
      testAccCheckSpotFleetRequest_EBSAttributes sfr =
        Outcome.err (GoError.errorf "Missing launch specification")) ∧
    (∀ spec rest, config.LaunchSpecifications = spec :: rest →
      spec.BlockDeviceMappings.length < 2 →
      testAccCheckSpotFleetRequest_EBSAttributes sfr =
        Outcome.err (GoError.errorf ("Expected 2 block device mappings, got " ++
          toString spec.BlockDeviceMappings.length))) ∧
    (∀ spec rest ebs0 ebs1 more, config.LaunchSpecifications = spec :: rest →
      spec.BlockDeviceMappings = ebs0 :: ebs1 :: more →
      (testAccCheckSpotFleetRequest_EBSAttributes sfr = Outcome.nil ↔
        ebs0.DeviceName = some "/dev/xvda" ∧ ebs1.DeviceName = some "/dev/xvdcz")) := by
  unfold testAccCheckSpotFleetRequest_EBSAttributes
  rw [hcfg]
  refine ⟨?_, ?_, ?_⟩
  · intro hnone
    simp [hnone]
  · intro spec rest hspec hlen
    simp [hspec, hlen]
  · intro spec rest ebs0 ebs1 more hspec hebs
    simp only [hspec, hebs, List.length_cons, Nat.add_one_ne_zero, if_false]
    have hnot : ¬ (more.length + 1 + 1 < 2) := by omega
    rw [if_neg hnot]
    cases h0 : ebs0.DeviceName with
    | none => simp
    | some name0 =>
      simp only [Option.some.injEq]
      by_cases hn0 : name0 = "/dev/xvda"
      · rw [if_neg (by simpa using hn0)]
        cases h1 : ebs1.DeviceName with
        | none => simp
        | some name1 =>
          simp only [Option.some.injEq]
          by_cases hn1 : name1 = "/dev/xvdcz"
          · rw [if_neg (by simpa using hn1)]
            simp [hn0, hn1]
          · rw [if_pos (by simpa using hn1)]
            simp [hn1]
      · rw [if_pos (by simpa using hn0)]
        simp [hn0]

/-- C23, amended, on three block device mappings whose first two are named
as expected: the check returns `nil`. -/
theorem ebs_check_spec_witness :
    (configWithDevices ["/dev/xvda", "/dev/xvdcz", "/dev/xvdf"]).SpotFleetRequestConfig =
      some { LaunchSpecifications :=
        [{ BlockDeviceMappings := [{ DeviceName := some "/dev/xvda" },
            { DeviceName := some "/dev/xvdcz" }, { DeviceName := some "/dev/xvdf" }],
           IamInstanceProfile := none, Placement := none }] } ∧
    testAccCheckSpotFleetRequest_EBSAttributes
        (configWithDevices ["/dev/xvda", "/dev/xvdcz", "/dev/xvdf"]) = Outcome.nil :=
  ⟨rfl,
    ((ebs_check_spec (configWithDevices ["/dev/xvda", "/dev/xvdcz", "/dev/xvdf"]) _ rfl).2.2
      _ _ _ _ _ rfl rfl).2 ⟨rfl, rfl⟩⟩

/-- The placement group name that the placement check requires is not the
empty string. -/
theorem placement_group_name_ne_empty (rName : String) : "test-pg-" ++ rName ≠ "" := by
  intro h
  have hlen : ("test-pg-" ++ rName).length = "".length := by rw [h]
  rw [String.length_append] at hlen
  have h8 : "test-pg-".length = 8 := by decide
  have h0 : "".length = 0 := by decide
  omega

/-- A plain text is read back from a quoted template unchanged. -/
theorem hclQuotedValue_of_plain (text : List Char) (hplain : hclPlain text = true) :
    hclQuotedValue text = some text := by
  induction text with
  | nil => rfl
  | cons c rest ih =>
    simp only [hclPlain, Bool.and_eq_true, Bool.not_eq_true'] at hplain
    obtain ⟨⟨hbad, hseq⟩, hrest⟩ := hplain
    have hstep : (hclQuotedValue rest).map (fun v => c :: v) = some (c :: rest) := by
      rw [ih hrest]
      rfl
    unfold hclQuotedValue
    simp only [hbad, hseq, Bool.false_eq_true, if_false]
    match rest, hrest, hstep with
    | [], _, hstep => exact hstep
    | [x], _, hstep => exact hstep
    | x :: y :: rest3, hrest, hstep =>
      simp only
      have hesc : (hclSigil c && x == c && y == hclBrace) = false := by
        cases hcond : (hclSigil c && x == c && y == hclBrace) with
        | false => rfl
        | true =>
          simp only [Bool.and_eq_true, beq_iff_eq] at hcond
          obtain ⟨⟨hsig, hx⟩, hy⟩ := hcond
          simp only [hclPlain, Bool.and_eq_true, Bool.not_eq_true'] at hrest
          have hcontra := hrest.1.2
          rw [hx, hsig, hy] at hcontra
          simp at hcontra
      rw [hesc]
      exact hstep

/-- The prefix `test-pg-` holds no character with a meaning in a template:
the text after it decides whether the whole is plain. -/
theorem hclPlain_test_pg (rName : String) :
    hclPlain ("test-pg-" ++ rName).data = hclPlain rName.data := by
  have hdata : ("test-pg-" ++ rName).data =
      't' :: 'e' :: 's' :: 't' :: '-' :: 'p' :: 'g' :: '-' :: rName.data := rfl
  have ht : hclBad 't' = false ∧ hclSigil 't' = false := by decide
  have he : hclBad 'e' = false ∧ hclSigil 'e' = false := by decide
  have hs : hclBad 's' = false ∧ hclSigil 's' = false := by decide
  have hd : hclBad '-' = false ∧ hclSigil '-' = false := by decide
  have hp : hclBad 'p' = false ∧ hclSigil 'p' = false := by decide
  have hg : hclBad 'g' = false ∧ hclSigil 'g' = false := by decide
  rw [hdata]
  simp only [hclPlain, ht.1, ht.2, he.1, he.2, hs.1, hs.2, hd.1, hd.2, hp.1, hp.2, hg.1, hg.2,
    Bool.not_false, Bool.false_and, Bool.true_and]

/-- The name that Terraform reads for the placement group when `rName` holds
the escape for a sigil and a brace: the escape is read as the two
characters, so the name is not `"test-pg-" ++ rName`. -/
theorem tenancy_group_name_at_escape :
    (hclAttribute "name"
        [HclItem.attr "name" (HclExpr.template ("test-pg-" ++ "a$$\x7bb")),
          HclItem.attr "strategy" (HclExpr.str "cluster")]).bind hclStringValue =
      some "test-pg-a$\x7bb" := by
  decide

/-- C24 as stated fails: for the name `a$$` followed by a brace and `b`, the
configuration does not give the placement group the name that the check
requires, which is `"test-pg-" ++ rName`. -/
theorem tenancy_group_name_not_for_every_name :
    ¬ ∀ (baseConfig : String → String → String) (rName publicKey validUntil : String),
        ∃ body, hclResourceBody "aws_placement_group" "test"
            (testAccSpotFleetRequestTenancyGroupConfig baseConfig rName publicKey
              validUntil).resources = some body ∧
          (hclAttribute "name" body).bind hclStringValue = some ("test-pg-" ++ rName) := by
  intro hall
  obtain ⟨body, hbody, hname⟩ := hall (fun _ _ => "") "a$$\x7bb" "ssh-rsa AAAA"
    "2026-11-05T00:00:00Z"
  have hb : body = [HclItem.attr "name" (HclExpr.template ("test-pg-" ++ "a$$\x7bb")),
      HclItem.attr "strategy" (HclExpr.str "cluster")] := (Option.some.inj hbody).symm
  rw [hb] at hname
  have hvalue : (hclAttribute "name"
      [HclItem.attr "name" (HclExpr.template ("test-pg-" ++ "a$$\x7bb")),
        HclItem.attr "strategy" (HclExpr.str "cluster")]).bind hclStringValue =
      some "test-pg-a$\x7bb" := by decide
  rw [hvalue] at hname
  exact absurd hname (by decide)

/-- C24, amended: for every `rName` that holds no double quote, backslash or
line break and no `$` or `%` right before a brace, the configuration
`testAccSpotFleetRequestTenancyGroupConfig` gives its placement group the
name `"test-pg-" ++ rName`; and for every `rName` the placement check returns
`nil` if and only if the first launch specification has a placement with
tenancy `dedicated` and the group name `"test-pg-" ++ rName`. -/
theorem placement_check_spec (quote : String → String)
    (baseConfig : String → String → String) (rName publicKey validUntil : String)
    (sfr : SpotFleetRequestConfig) (config : SpotFleetRequestConfigData)
    (spec : SpotFleetLaunchSpecification) (rest : List SpotFleetLaunchSpecification)
    (hcfg : sfr.SpotFleetRequestConfig = some config)
    (hspec : config.LaunchSpecifications = spec :: rest) :
    (hclPlain rName.data = true →
      ∃ body, hclResourceBody "aws_placement_group" "test"
          (testAccSpotFleetRequestTenancyGroupConfig baseConfig rName publicKey
            validUntil).resources = some body ∧
        (hclAttribute "name" body).bind hclStringValue = some ("test-pg-" ++ rName)) ∧
    (testAccCheckSpotFleetRequest_PlacementAttributes quote sfr rName = Outcome.nil ↔
      ∃ placement, spec.Placement = some placement ∧
        placement.Tenancy = some "dedicated" ∧
        placement.GroupName = some ("test-pg-" ++ rName)) := by
  constructor
  · intro hplain
    refine ⟨_, rfl, ?_⟩
    have hvalue : hclQuotedValue ("test-pg-" ++ rName).data =
        some ("test-pg-" ++ rName).data :=
      hclQuotedValue_of_plain _ (by rw [hclPlain_test_pg]; exact hplain)
    show (hclStringValue (HclExpr.template ("test-pg-" ++ rName))) = _
    simp only [hclStringValue, hvalue, Option.map_some']
  unfold testAccCheckSpotFleetRequest_PlacementAttributes
  rw [hcfg]
  simp only [hspec, List.length_cons, Nat.add_one_ne_zero, if_false]
  cases hp : spec.Placement with
  | none => simp
  | some placement =>
    simp only [Option.some.injEq, exists_eq_left']
    cases ht : placement.Tenancy with
    | none => simp
    | some tenancy =>
      simp only [Option.some.injEq]
      by_cases hten : tenancy = "dedicated"
      · rw [if_neg (by simpa [TenancyDedicated] using hten)]
        cases hg : placement.GroupName with
        | none =>
          have hne : StringValue none ≠ "test-pg-" ++ rName := by
            intro h
            exact placement_group_name_ne_empty rName h.symm
          rw [if_pos hne]
          simp
        | some group =>
          simp only [StringValue, Option.some.injEq]
          by_cases hgroup : group = "test-pg-" ++ rName
          · rw [if_neg (by simpa using hgroup)]
            simp [hten, hgroup]
          · rw [if_pos (by simpa using hgroup)]
            simp [hgroup]
      · rw [if_pos (by simpa [TenancyDedicated] using hten)]
        simp [hten]

/-- C24, amended, on the name `tf-acc-test-1`: the configuration names the
placement group `test-pg-tf-acc-test-1`, and a dedicated placement in that
group passes the check. -/
theorem placement_check_spec_witness :
    (hclPlain "tf-acc-test-1".data = true ∧
      (configWithPlacement "dedicated" "test-pg-tf-acc-test-1").SpotFleetRequestConfig =
        some { LaunchSpecifications :=
          [{ BlockDeviceMappings := [], IamInstanceProfile := none,
             Placement := some { Tenancy := some "dedicated",
                                 GroupName := some "test-pg-tf-acc-test-1" } }] }) ∧
    (∃ body, hclResourceBody "aws_placement_group" "test"
        (testAccSpotFleetRequestTenancyGroupConfig (fun _ _ => "") "tf-acc-test-1"
          "ssh-rsa AAAA" "2026-11-05T00:00:00Z").resources = some body ∧
      (hclAttribute "name" body).bind hclStringValue =
        some ("test-pg-" ++ "tf-acc-test-1")) ∧
    testAccCheckSpotFleetRequest_PlacementAttributes plainQuote
        (configWithPlacement "dedicated" "test-pg-tf-acc-test-1") "tf-acc-test-1" =
      Outcome.nil :=
  ⟨⟨by decide, rfl⟩,
    (placement_check_spec plainQuote (fun _ _ => "") "tf-acc-test-1" "ssh-rsa AAAA"
      "2026-11-05T00:00:00Z" (configWithPlacement "dedicated" "test-pg-tf-acc-test-1")
      { LaunchSpecifications :=
        [{ BlockDeviceMappings := [], IamInstanceProfile := none,
           Placement := some { Tenancy := some "dedicated",
                               GroupName := some "test-pg-tf-acc-test-1" } }] }
      { BlockDeviceMappings := [], IamInstanceProfile := none,
        Placement := some { Tenancy := some "dedicated",
                            GroupName := some "test-pg-tf-acc-test-1" } }
      [] rfl rfl).1 (by decide),
    (placement_check_spec plainQuote (fun _ _ => "") "tf-acc-test-1" "ssh-rsa AAAA"
      "2026-11-05T00:00:00Z" (configWithPlacement "dedicated" "test-pg-tf-acc-test-1")
      { LaunchSpecifications :=
        [{ BlockDeviceMappings := [], IamInstanceProfile := none,
           Placement := some { Tenancy := some "dedicated",
                               GroupName := some "test-pg-tf-acc-test-1" } }] }
      { BlockDeviceMappings := [], IamInstanceProfile := none,
        Placement := some { Tenancy := some "dedicated",
                            GroupName := some "test-pg-tf-acc-test-1" } }
      [] rfl rfl).2.2
      ⟨{ Tenancy := some "dedicated", GroupName := some "test-pg-tf-acc-test-1" }, rfl, rfl,
        by decide⟩⟩

end TerraformAws
